import Mathlib

/-!
Verification development for the per-event derived-object engine of the
h-tautau analysis code (`Analysis/src/EventInfo.cpp` together with the data
model of `Core/include/EventTuple.h` / `Core/include/TupleObjects.h`).

Embedding conventions:
* `double` values are embedded as exact integers (`ℤ`): the engine applies
  only ring operations and order comparisons to its real-valued quantities
  (there is no division anywhere in the embedded code), so the embedded
  control flow is faithful over any choice of integer-valued inputs, and
  every definition stays kernel-computable.
* ROOT's `LorentzVectorE` stores a momentum in (pt, eta, phi, E) coordinates.
  The polar-to-Cartesian conversion is transcendental, so a jet record carries
  both the stored polar scalars `pt`, `eta` (read by the selection cuts) and
  the Cartesian components (used for four-momentum sums); `phi` is unused.
* `M()` of a four-momentum is `sign(m²)·√|m²|`, a strictly increasing function
  of the mass squared `m² = E² − |p|²`; every comparison of `M()` values in
  the source is therefore embedded as the corresponding comparison of
  mass-squared values, which is exact over `ℤ`.
* External collaborators that are not part of the sources (the `BTagger`
  thresholds/tagging function/working-point predicate, the
  `PassEcalNoiceVetoJets` noise veto, the `cuts::hh_bbtautau_2017` VBF
  threshold constants, the kinematic-fit solver, `TMath::Prob`,
  `Calculate_MT2`, the virtual `GetHiggsTTMomentum` and the
  jet-energy-correction wrapper) are modelled as opaque function parameters,
  following the spec's description of them as inputs / opaque pure functions.
* The per-instance mutex and in-place mutation are embedded by explicit state
  passing: each memoizing accessor takes an `EventInfoBase` value and returns
  the accessed value together with the updated instance.
-/

namespace analysis

/-- Cartesian components of a four-momentum; used for four-vector sums and
invariant masses. -/
structure Vec4 where
  e : ℤ
  px : ℤ
  py : ℤ
  pz : ℤ
deriving DecidableEq, Repr

instance : Add Vec4 := ⟨fun a b => ⟨a.e + b.e, a.px + b.px, a.py + b.py, a.pz + b.pz⟩⟩

instance : Inhabited Vec4 := ⟨⟨0, 0, 0, 0⟩⟩

/-- Mass squared `E² − |p|²` of a four-momentum.  All comparisons of `M()` in
the source are embedded as comparisons of this quantity (see file header). -/
def Vec4.massSq (v : Vec4) : ℤ := v.e ^ 2 - (v.px ^ 2 + v.py ^ 2 + v.pz ^ 2)

/-- One entry of the per-event jet arrays (`jets_p4`, `jets_pu_id`,
`jets_resolution` of `EventTuple.h`, bundled per index). -/
structure JetEntry where
  p4 : Vec4
  pt : ℤ
  eta : ℤ
  pu_id : Nat
  resolution : ℤ
deriving DecidableEq, Repr

instance : Inhabited JetEntry := ⟨⟨default, 0, 0, 0, 0⟩⟩

/-- MET covariance matrix (`SquareMatrix<2>`); carried opaquely. -/
structure MetCov where
  xx : ℤ
  xy : ℤ
  yx : ℤ
  yy : ℤ
deriving DecidableEq, Repr

instance : Inhabited MetCov := ⟨⟨0, 0, 0, 0⟩⟩

/-- The flat per-event record (`ntuple::Event`), restricted to the branches
read by `EventInfo.cpp`.  The kinematic-fit side table is named as used by
`EventInfoBase::GetKinFitResults` (`kinFit_jetPairId` etc.). -/
structure Event where
  jets : List JetEntry
  other_jets_p4 : List Vec4
  fatJets_p4 : List Vec4
  lep_p4 : List Vec4
  lep_iso : List ℤ
  first_daughter_indexes : List Nat
  second_daughter_indexes : List Nat
  pfMET_p4 : Vec4
  pfMET_cov : MetCov
  kinFit_jetPairId : List Nat
  kinFit_convergence : List Int
  kinFit_chi2 : List ℤ
  kinFit_m : List ℤ
deriving DecidableEq, Repr

/-- Data-taking period (`analysis::Period`). -/
inductive Period
  | Run2015
  | Run2016
  | Run2017
  | Run2018
deriving DecidableEq, Repr

/-- Jet-ordering policy (`analysis::JetOrdering`). -/
inductive JetOrdering
  | NoOrdering
  | Pt
  | CSV
  | DeepCSV
  | DeepFlavour
deriving DecidableEq, Repr

/-- Uncertainty-source tag (opaque enumeration). -/
structure UncertaintySource where
  tag : Nat
deriving DecidableEq, Repr

/-- Variation scale (`analysis::UncertaintyScale`). -/
inductive UncertaintyScale
  | Central
  | Up
  | Down
deriving DecidableEq, Repr

/-- Raw output of the external kinematic-fit solver:
`(convergence, chi2, mass)`. -/
structure FitResultsRaw where
  convergence : Int
  chi2 : ℤ
  mass : ℤ
deriving DecidableEq, Repr

/-- Missing-energy candidate: momentum plus covariance (`analysis::MET`). -/
structure MET where
  p4 : Vec4
  cov : MetCov
deriving DecidableEq, Repr

/-- Modelled from the spec: the external collaborators of the engine that are
not part of the sources, bundled as opaque pure functions — the `BTagger`
built from (period, jet ordering) with its pt/eta thresholds, per-jet tagging
score and medium-working-point predicate; the `PassEcalNoiceVetoJets` noise
veto; the `cuts::hh_bbtautau_2017::jetID` VBF threshold constants; the
kinematic-fit solver `kin_fit::FitProducer::Fit`; `TMath::Prob`;
`Calculate_MT2`; and the virtual `GetHiggsTTMomentum` implemented by derived
classes. -/
structure Config where
  bjet_pt_cut : ℤ
  bjet_eta_cut : ℤ
  vbf_pt_cut : ℤ
  vbf_eta_cut : ℤ
  btag : Event → Nat → ℤ
  passWP : Event → Nat → Bool
  passNoiseVeto : JetEntry → Bool
  kinFitProducerFit : Vec4 → Vec4 → Vec4 → Vec4 → MET → ℤ → ℤ → FitResultsRaw
  prob : ℤ → Nat → ℤ
  calcMT2 : Vec4 → Vec4 → Vec4 → Vec4 → Vec4 → ℤ
  higgsTT : Event → Bool → Vec4

/-- Modelled from the spec: `ntuple::UndefinedJetPair()` fills a pair with a
sentinel index that is never a valid position in a jet array (`size_t` max in
a 64-bit build); the sources only use it through the `< njets` validity
tests. -/
def undefIdx : Nat := 2 ^ 64 - 1

/-- Embeds `ntuple::UndefinedJetPair()`. -/
def UndefinedJetPair : Nat × Nat := (undefIdx, undefIdx)

/-- Embeds `EventInfoBase::SelectedSignalJets`. -/
structure SelectedSignalJets where
  selectedBjetPair : Nat × Nat
  selectedVBFjetPair : Nat × Nat
  n_bjets : Nat
deriving DecidableEq, Repr

/-- Default constructor: both pairs undefined, no b-tagged jets. -/
instance : Inhabited SelectedSignalJets := ⟨⟨UndefinedJetPair, UndefinedJetPair, 0⟩⟩

/-- Embeds `SelectedSignalJets::HasBjetPair`. -/
def SelectedSignalJets.HasBjetPair (s : SelectedSignalJets) (njets : Nat) : Bool :=
  decide (s.selectedBjetPair.1 < njets) && decide (s.selectedBjetPair.2 < njets)

/-- Embeds `SelectedSignalJets::HasVBFPair`. -/
def SelectedSignalJets.HasVBFPair (s : SelectedSignalJets) (njets : Nat) : Bool :=
  decide (s.selectedVBFjetPair.1 < njets) && decide (s.selectedVBFjetPair.2 < njets)

/-- Embeds `SelectedSignalJets::isSelectedBjet`. -/
def SelectedSignalJets.isSelectedBjet (s : SelectedSignalJets) (n : Nat) : Bool :=
  s.selectedBjetPair.1 == n || s.selectedBjetPair.2 == n

/-- Embeds `SelectedSignalJets::isSelectedVBFjet`. -/
def SelectedSignalJets.isSelectedVBFjet (s : SelectedSignalJets) (n : Nat) : Bool :=
  s.selectedVBFjetPair.1 == n || s.selectedVBFjetPair.2 == n

/-- Embeds `jet_ordering::JetInfo`: (momentum, index, tag). -/
structure JetInfo where
  p4 : Vec4
  pt : ℤ
  eta : ℤ
  index : Nat
  tag : ℤ
deriving DecidableEq, Repr

/-- Embeds `std::abs` on an embedded real-valued quantity. -/
def qabs (x : ℤ) : ℤ := if x < 0 then -x else x

/-- Modelled from the spec: the ranking order of `jet_ordering::OrderJets` —
descending by tag score, ties broken by descending pt. -/
def jetBefore (a b : JetInfo) : Prop :=
  b.tag < a.tag ∨ (a.tag = b.tag ∧ b.pt ≤ a.pt)

instance : DecidableRel jetBefore := fun a b => by
  unfold jetBefore
  infer_instance

/-- Modelled from the spec: `jet_ordering::OrderJets` — keep the candidates
passing the pt/eta thresholds (when the hard cut is requested) and rank them
by tag score, ties by pt. -/
def OrderJets (l : List JetInfo) (applyHardCut : Bool) (ptCut etaCut : ℤ) : List JetInfo :=
  List.insertionSort jetBefore
    (l.filter fun j => !applyHardCut || (decide (ptCut < j.pt) && decide (qabs j.eta < etaCut)))

/-- Treatment of one indexed jet by the `CreateJetInfo` lambda of
`EventInfoBase::SelectSignalJets` (EventInfo.cpp lines 72–85): skip it when
it is already selected as a b or VBF jet, fails the detector-noise veto, or
misses the required pile-up-id bit; otherwise record (momentum, index, tag),
the tag being the b-tag score when `useBTag` and the jet pt otherwise. -/
def createJetInfoEntry (cfg : Config) (ev : Event) (sel : SelectedSignalJets) (useBTag : Bool)
    (nj : Nat × JetEntry) : Option JetInfo :=
  if sel.isSelectedBjet nj.1 then none
  else if sel.isSelectedVBFjet nj.1 then none
  else if !cfg.passNoiseVeto nj.2 then none
  else if nj.2.pu_id &&& 2 == 0 then none
  else some ⟨nj.2.p4, nj.2.pt, nj.2.eta, nj.1,
             if useBTag then cfg.btag ev nj.1 else nj.2.pt⟩

/-- The `CreateJetInfo` lambda itself: walk the indexed jet array and keep
the entries the selection admits. -/
def CreateJetInfo (cfg : Config) (ev : Event) (sel : SelectedSignalJets) (useBTag : Bool) :
    List JetInfo :=
  ev.jets.enum.filterMap (createJetInfoEntry cfg ev sel useBTag)

/-- One step of the VBF double loop (EventInfo.cpp lines 105–117): a candidate
pair replaces the current best exactly when its invariant mass is strictly
greater than the running maximum; `none` models the `-∞` initialisation of
`max_mjj`. -/
def vbfPairStep : Option ℤ × (Nat × Nat) → JetInfo × JetInfo → Option ℤ × (Nat × Nat)
  | (none, _), pr => (some (pr.1.p4 + pr.2.p4).massSq, (pr.1.index, pr.2.index))
  | (some mx, p), pr =>
      if mx < (pr.1.p4 + pr.2.p4).massSq then
        (some (pr.1.p4 + pr.2.p4).massSq, (pr.1.index, pr.2.index))
      else (some mx, p)

/-- All two-element combinations `(l[n], l[h])` with `n < h`, in the scan
order of the nested loops of EventInfo.cpp lines 106–117. -/
def upperPairs : List JetInfo → List (JetInfo × JetInfo)
  | [] => []
  | x :: xs => (xs.map fun y => (x, y)) ++ upperPairs xs

/-- The VBF pair chosen by the double loop: the first pair (in scan order)
realising the maximal invariant mass, or `UndefinedJetPair` when fewer than
two candidates exist. -/
def selectVBFPair (v : List JetInfo) : Nat × Nat :=
  ((upperPairs v).foldl vbfPairStep (none, UndefinedJetPair)).2

/-- The b-tag-ranked candidate list `bjets_ordered` of EventInfo.cpp lines
87–88 (no jet selected yet). -/
def bjetsOrderedInit (cfg : Config) (ev : Event) : List JetInfo :=
  OrderJets (CreateJetInfo cfg ev ⟨UndefinedJetPair, UndefinedJetPair, 0⟩ true) true
    cfg.bjet_pt_cut cfg.bjet_eta_cut

/-- The selection after the b-jet stage (EventInfo.cpp lines 87–98):
`n_bjets` counts the ranked candidates, the first b-jet is the top candidate
if any, and the second slot is filled only when the second-ranked candidate
independently passes the medium working point. -/
def selAfterBStage (cfg : Config) (ev : Event) : SelectedSignalJets :=
  match bjetsOrderedInit cfg ev with
  | [] => ⟨UndefinedJetPair, UndefinedJetPair, 0⟩
  | [j0] => ⟨(j0.index, undefIdx), UndefinedJetPair, 1⟩
  | j0 :: j1 :: rest =>
      ⟨(j0.index, if cfg.passWP ev j1.index then j1.index else undefIdx),
       UndefinedJetPair, (j0 :: j1 :: rest).length⟩

/-- The pt-ranked VBF candidate list `vbf_jets_ordered` built from the jets
not selected by `sel` (EventInfo.cpp lines 100–103). -/
def vbfOrderedOf (cfg : Config) (ev : Event) (sel : SelectedSignalJets) : List JetInfo :=
  OrderJets (CreateJetInfo cfg ev sel false) true cfg.vbf_pt_cut cfg.vbf_eta_cut

/-- The selection after the VBF stage (EventInfo.cpp lines 100–117). -/
def selAfterVBFStage (cfg : Config) (ev : Event) : SelectedSignalJets :=
  let selB := selAfterBStage cfg ev
  { selB with selectedVBFjetPair := selectVBFPair (vbfOrderedOf cfg ev selB) }

/-- Embeds `EventInfoBase::SelectSignalJets` (EventInfo.cpp lines 62–132), with the
fallback stage of lines 120–131: if the b-jet pair is not yet defined, retry
the second slot from the remaining candidates ignoring the working-point
requirement; if none remain, clear the VBF pair and, when the original
ranking had at least two entries, reuse its second-ranked entry. -/
def SelectSignalJets (cfg : Config) (ev : Event) : SelectedSignalJets :=
  let selC := selAfterVBFStage cfg ev
  if selC.HasBjetPair ev.jets.length then selC
  else
    match OrderJets (CreateJetInfo cfg ev selC true) true cfg.bjet_pt_cut cfg.bjet_eta_cut with
    | j :: _ => { selC with selectedBjetPair := (selC.selectedBjetPair.1, j.index) }
    | [] =>
        let selE := { selC with selectedVBFjetPair := UndefinedJetPair }
        match bjetsOrderedInit cfg ev with
        | _ :: j1 :: _ => { selE with selectedBjetPair := (selE.selectedBjetPair.1, j1.index) }
        | _ => selE

/-- Invariant mass squared of a candidate pair, the quantity whose
comparisons embed the `jet_12.M()` comparisons of the VBF loop. -/
def massOf (pr : JetInfo × JetInfo) : ℤ := (pr.1.p4 + pr.2.p4).massSq

/-- One indexed jet passes every cut of the b-jet selection path: the
detector-noise veto, the required pile-up-id bit, and the b-tag pt/eta
thresholds. -/
def passesBCuts (cfg : Config) (nj : Nat × JetEntry) : Bool :=
  cfg.passNoiseVeto nj.2 && !(nj.2.pu_id &&& 2 == 0) &&
    decide (cfg.bjet_pt_cut < nj.2.pt) && decide (qabs nj.2.eta < cfg.bjet_eta_cut)

/-- The b-tag-path `JetInfo` built from an indexed jet. -/
def mkBJetInfo (cfg : Config) (ev : Event) (nj : Nat × JetEntry) : JetInfo :=
  ⟨nj.2.p4, nj.2.pt, nj.2.eta, nj.1, cfg.btag ev nj.1⟩

/-- Embeds `jec::JECUncertaintiesWrapper`, reduced to its `ApplyShift` entry point:
`(jets, source, scale, other jets, met) ↦ (corrected jets, shifted met)`
(an external collaborator, consumed as an opaque pure function; the C++
version returns the corrected jets and updates the met through a pointer). -/
structure JECUncertaintiesWrapper where
  applyShift : List JetEntry → UncertaintySource → UncertaintyScale → List Vec4 → Vec4 →
    List JetEntry × Vec4

/-- Embeds `analysis::SummaryInfo`, reduced to the part read by `EventInfo.cpp`'s
shift path: the optional jet-energy-correction wrapper. -/
structure SummaryInfo where
  jecUncertainties : Option JECUncertaintiesWrapper

/-- Embeds `SummaryInfo::GetJecUncertainties` (EventInfo.cpp lines 32–37). -/
def SummaryInfo.GetJecUncertainties (si : SummaryInfo) : Except String JECUncertaintiesWrapper :=
  match si.jecUncertainties with
  | none => .error "Jec Uncertainties not stored."
  | some jec => .ok jec

/-- Embeds `analysis::LepCandidate`: lepton momentum plus isolation. -/
structure LepCandidate where
  p4 : Vec4
  iso : ℤ
deriving DecidableEq, Repr

/-- Embeds `EventInfoBase::HiggsBBCandidate`: the composite of the two selected
b-jets. -/
structure HiggsBBCandidate where
  b1 : JetEntry
  b2 : JetEntry
deriving DecidableEq, Repr

/-- Embeds `GetMomentum()` of the Higgs-bb composite: the sum of the daughters. -/
def HiggsBBCandidate.momentum (h : HiggsBBCandidate) : Vec4 := h.b1.p4 + h.b2.p4

/-- Embeds `kin_fit::FitResults` as stored by `GetKinFitResults`: convergence,
chi-square, derived p-value, fitted mass. -/
structure KinFitResults where
  convergence : Int
  chi2 : ℤ
  probability : ℤ
  mass : ℤ
deriving DecidableEq, Repr

/-- Embeds `analysis::EventInfoBase`: a borrowed event record, the constructor-time
signal-jet selection and configuration-like immutable fields, plus one
optional slot per memoized derived field.  The per-instance mutex and the
in-place mutation of the C++ class are embedded by explicit state passing:
each accessor returns the accessed value together with the updated
instance. -/
structure EventInfoBase where
  event : Event
  summaryInfo : Option SummaryInfo
  selected_htt_index : Nat
  selected_signal_jets : SelectedSignalJets
  period : Period
  jet_ordering : JetOrdering
  leg1 : Option LepCandidate
  leg2 : Option LepCandidate
  jets : Option (List JetEntry)
  fatJets : Option (List Vec4)
  met : Option MET
  higgs_bb : Option HiggsBBCandidate
  kinfit_results : Option KinFitResults
  mt2 : Option ℤ

/-- The `EventInfoBase` constructor: store the borrowed record and the
immutable fields, run `SelectSignalJets` once, and start with an empty
derived-field cache.  (The trigger-result fields are not modelled; no claim
mentions them.) -/
def mkEventInfoBase (cfg : Config) (ev : Event) (htt : Nat) (p : Period) (jo : JetOrdering)
    (si : Option SummaryInfo) : EventInfoBase :=
  { event := ev, summaryInfo := si, selected_htt_index := htt,
    selected_signal_jets := SelectSignalJets cfg ev, period := p, jet_ordering := jo,
    leg1 := none, leg2 := none, jets := none, fatJets := none, met := none,
    higgs_bb := none, kinfit_results := none, mt2 := none }

namespace EventInfoBase

/-- Embeds `GetNJets`: the size of the record's jet array. -/
def GetNJets (e : EventInfoBase) : Nat := e.event.jets.length

/-- Embeds `GetFirstLeg` (EventInfo.cpp lines 150–158): memoized; built from the
record's first-daughter index for the chosen Higgs candidate.  `.at` array
accesses are embedded with `getD` (per the spec, the leg accessors never
fail). -/
def GetFirstLeg (e : EventInfoBase) : LepCandidate × EventInfoBase :=
  match e.leg1 with
  | some l => (l, e)
  | none =>
      let idx := e.event.first_daughter_indexes.getD e.selected_htt_index 0
      let l : LepCandidate := ⟨e.event.lep_p4.getD idx default, e.event.lep_iso.getD idx 0⟩
      (l, { e with leg1 := some l })

/-- Embeds `GetSecondLeg` (EventInfo.cpp lines 160–168). -/
def GetSecondLeg (e : EventInfoBase) : LepCandidate × EventInfoBase :=
  match e.leg2 with
  | some l => (l, e)
  | none =>
      let idx := e.event.second_daughter_indexes.getD e.selected_htt_index 0
      let l : LepCandidate := ⟨e.event.lep_p4.getD idx default, e.event.lep_iso.getD idx 0⟩
      (l, { e with leg2 := some l })

/-- Modelled from the spec: the virtual `GetLeg` dispatch implemented by the
derived classes (not among the sources) — the first leg for id 1, the second
for id 2; only those two ids occur in the embedded call sites. -/
def GetLeg (e : EventInfoBase) (leg_id : Nat) : LepCandidate × EventInfoBase :=
  if leg_id = 2 then GetSecondLeg e else GetFirstLeg e

/-- Embeds `GetJets` (EventInfo.cpp lines 231–243): memoized; materialises one jet
candidate per record jet, in array order. -/
def GetJets (e : EventInfoBase) : List JetEntry × EventInfoBase :=
  match e.jets with
  | some js => (js, e)
  | none => (e.event.jets, { e with jets := some e.event.jets })

/-- Embeds `SetJets` (EventInfo.cpp lines 245–249): wholesale replacement of the
cached jet collection. -/
def SetJets (e : EventInfoBase) (new_jets : List JetEntry) : EventInfoBase :=
  { e with jets := some new_jets }

/-- Embeds `GetFatJets` (EventInfo.cpp lines 297–309): memoized fat-jet
candidates. -/
def GetFatJets (e : EventInfoBase) : List Vec4 × EventInfoBase :=
  match e.fatJets with
  | some fs => (fs, e)
  | none => (e.event.fatJets_p4, { e with fatJets := some e.event.fatJets_p4 })

/-- Embeds `GetMET` (EventInfo.cpp lines 345–353): memoized; built from the record's
momentum and covariance. -/
def GetMET (e : EventInfoBase) : MET × EventInfoBase :=
  match e.met with
  | some m => (m, e)
  | none =>
      let m : MET := ⟨e.event.pfMET_p4, e.event.pfMET_cov⟩
      (m, { e with met := some m })

/-- Modelled from the spec: `SetMetMomentum` (declared in the header, not
among the sources) — overwrite the momentum of the cached missing-energy
candidate, populating it from the record first if necessary. -/
def SetMetMomentum (e : EventInfoBase) (p : Vec4) : EventInfoBase :=
  let me := GetMET e
  { me.2 with met := some ⟨p, me.1.cov⟩ }

/-- Embeds `EventInfoBase::HasBjetPair` (line 311): the selection's pair test at the
record's jet count. -/
def HasBjetPair (e : EventInfoBase) : Bool :=
  e.selected_signal_jets.HasBjetPair (GetNJets e)

/-- Embeds `EventInfoBase::HasVBFjetPair` (line 312). -/
def HasVBFjetPair (e : EventInfoBase) : Bool :=
  e.selected_signal_jets.HasVBFPair (GetNJets e)

/-- Embeds `GetBJet` (EventInfo.cpp lines 323–330): a single guard covers both the
missing pair and an id outside {1,2}; on success the cached jet collection is
consulted at the selected index. -/
def GetBJet (e : EventInfoBase) (index : Nat) : Except String (JetEntry × EventInfoBase) :=
  if !(HasBjetPair e) || (index != 1 && index != 2) then .error "B jet not found."
  else
    let je := GetJets e
    if index = 1 then .ok (je.1.getD e.selected_signal_jets.selectedBjetPair.1 default, je.2)
    else .ok (je.1.getD e.selected_signal_jets.selectedBjetPair.2 default, je.2)

/-- Embeds `GetVBFJet` (EventInfo.cpp lines 314–321). -/
def GetVBFJet (e : EventInfoBase) (index : Nat) : Except String (JetEntry × EventInfoBase) :=
  if !(HasVBFjetPair e) || (index != 1 && index != 2) then .error "VBF jet not found."
  else
    let je := GetJets e
    if index = 1 then .ok (je.1.getD e.selected_signal_jets.selectedVBFjetPair.1 default, je.2)
    else .ok (je.1.getD e.selected_signal_jets.selectedVBFjetPair.2 default, je.2)

/-- Embeds `GetHiggsBB` (EventInfo.cpp lines 332–343): requires a defined b-jet pair
(checked before the cache), then memoizes the composite of the two selected
jets from the cached collection. -/
def GetHiggsBB (e : EventInfoBase) : Except String (HiggsBBCandidate × EventInfoBase) :=
  if !(HasBjetPair e) then .error "Can't create H->bb candidate."
  else
    match e.higgs_bb with
    | some h => .ok (h, e)
    | none =>
        let je := GetJets e
        let h : HiggsBBCandidate :=
          ⟨je.1.getD e.selected_signal_jets.selectedBjetPair.1 default,
           je.1.getD e.selected_signal_jets.selectedBjetPair.2 default⟩
        .ok (h, { je.2 with higgs_bb := some h })

/-- Modelled from the spec: `ntuple::CombinationPairToIndex` (not among the
sources) — the canonical key of an ordered jet-index pair within an event of
`njets` jets; any formula injective on valid pairs serves, the engine only
compares keys for equality. -/
def CombinationPairToIndex (pair : Nat × Nat) (njets : Nat) : Nat :=
  pair.1 * njets + pair.2

/-- Embeds `GetKinFitResults` (EventInfo.cpp lines 362–392): requires a defined
b-jet pair; memoized.  The canonical pair key is searched in the record's
kinematic-fit side table (`std::find`, i.e. first match): on a hit the stored
convergence, chi-square and mass are read and the p-value is derived from the
stored chi-square with 2 degrees of freedom; on a miss the external solver is
invoked with both leg momenta, both b-jet momenta, the missing-energy
candidate and the two per-jet energy resolutions (resolution fraction times
jet energy).  C++ leaves the argument evaluation order unspecified; the
accessors are idempotent, so the threading order chosen here does not affect
any value. -/
def GetKinFitResults (cfg : Config) (e : EventInfoBase) :
    Except String (KinFitResults × EventInfoBase) :=
  if !(HasBjetPair e) then .error "Can't retrieve KinFit results."
  else
    match e.kinfit_results with
    | some r => .ok (r, e)
    | none =>
        let pairId := CombinationPairToIndex e.selected_signal_jets.selectedBjetPair (GetNJets e)
        match e.event.kinFit_jetPairId.findIdx? (· == pairId) with
        | some i =>
            let c := e.event.kinFit_chi2.getD i 0
            let r : KinFitResults :=
              ⟨e.event.kinFit_convergence.getD i 0, c, cfg.prob c 2,
               e.event.kinFit_m.getD i 0⟩
            .ok (r, { e with kinfit_results := some r })
        | none =>
            match GetBJet e 1 with
            | .error msg => .error msg
            | .ok (b1, e1) =>
                match GetBJet e1 2 with
                | .error msg => .error msg
                | .ok (b2, e2) =>
                    let energy_resolution_1 := b1.resolution * b1.p4.e
                    let energy_resolution_2 := b2.resolution * b2.p4.e
                    let le1 := GetLeg e2 1
                    let le2 := GetLeg le1.2 2
                    let me := GetMET le2.2
                    let raw := cfg.kinFitProducerFit le1.1.p4 le2.1.p4 b1.p4 b2.p4 me.1
                      energy_resolution_1 energy_resolution_2
                    let r : KinFitResults :=
                      ⟨raw.convergence, raw.chi2, cfg.prob raw.chi2 2, raw.mass⟩
                    .ok (r, { me.2 with kinfit_results := some r })

/-- Embeds `GetResonanceMomentum` (EventInfo.cpp lines 394–403): the conflicting
option combination is rejected first; then the resonance momentum is the
Higgs-tautau momentum plus the Higgs-bb momentum, plus the missing energy
when requested. -/
def GetResonanceMomentum (cfg : Config) (e : EventInfoBase) (useSVfit addMET : Bool) :
    Except String (Vec4 × EventInfoBase) :=
  if useSVfit && addMET then .error "Can't add MET and with SVfit applied."
  else
    match GetHiggsBB e with
    | .error msg => .error msg
    | .ok (h, e1) =>
        let p4 := cfg.higgsTT e.event useSVfit + h.momentum
        if addMET then
          let me := GetMET e1
          .ok (p4 + me.1.p4, me.2)
        else .ok (p4, e1)

/-- Embeds `GetMT2` (EventInfo.cpp lines 405–414): memoized; computed from the two
leg momenta, the two Higgs-bb daughter momenta and the record's missing
energy. -/
def GetMT2 (cfg : Config) (e : EventInfoBase) : Except String (ℤ × EventInfoBase) :=
  match e.mt2 with
  | some v => .ok (v, e)
  | none =>
      match GetHiggsBB (GetLeg (GetLeg e 1).2 2).2 with
      | .error msg => .error msg
      | .ok (h, e3) =>
          let v := cfg.calcMT2 (GetLeg e 1).1.p4 ((GetLeg e 1).2.GetLeg 2).1.p4 h.b1.p4 h.b2.p4
            e.event.pfMET_p4
          .ok (v, { e3 with mt2 := some v })

/-- Embeds `GetSummaryInfo` (EventInfo.cpp lines 208–213). -/
def GetSummaryInfo (e : EventInfoBase) : Except String SummaryInfo :=
  match e.summaryInfo with
  | none => .error "SummaryInfo was not provided for this event."
  | some si => .ok si

/-- Modelled from the spec: the copy of the source instance taken at the
start of `ApplyShift` (the copy constructor lives in the header, which is not
among the sources).  Per spec §4.3/§9, the clone carries over the record
reference, summary, leg choice, selection, period and ordering policy, and
starts with an entirely empty derived-field cache. -/
def copyForShift (e : EventInfoBase) : EventInfoBase :=
  { event := e.event, summaryInfo := e.summaryInfo,
    selected_htt_index := e.selected_htt_index,
    selected_signal_jets := e.selected_signal_jets,
    period := e.period, jet_ordering := e.jet_ordering,
    leg1 := none, leg2 := none, jets := none, fatJets := none, met := none,
    higgs_bb := none, kinfit_results := none, mt2 := none }

/-- Embeds `ApplyShift` (EventInfo.cpp lines 170–183): clone the instance, require
the run summary and its jet-energy-correction wrapper, populate the clone's
jets and missing energy from the record, hand them with the record's other
jets to the external corrector, and overwrite the clone's two fields with the
corrected jets and the shifted missing energy. -/
def ApplyShift (e : EventInfoBase) (us : UncertaintySource) (sc : UncertaintyScale) :
    Except String EventInfoBase :=
  let shifted0 := copyForShift e
  match GetSummaryInfo shifted0 with
  | .error msg => .error msg
  | .ok si =>
      match si.GetJecUncertainties with
      | .error msg => .error msg
      | .ok jec =>
          let js := GetJets shifted0
          let me := GetMET js.2
          let corr := jec.applyShift js.1 us sc e.event.other_jets_p4 me.1.p4
          .ok (SetMetMomentum (SetJets me.2 corr.1) corr.2)

/-- The immutable (non-cache) components of an instance: record, summary,
leg choice, selection, period, ordering policy. -/
def immutablePart (e : EventInfoBase) :
    Event × Option SummaryInfo × Nat × SelectedSignalJets × Period × JetOrdering :=
  (e.event, e.summaryInfo, e.selected_htt_index, e.selected_signal_jets, e.period,
   e.jet_ordering)

/-- The solver invocation of the kinematic-fit miss path, phrased through the
public accessors of the instance: both leg momenta, both selected b-jet
momenta, the missing-energy candidate, and the two per-jet energy
resolutions (resolution fraction times jet energy). -/
def solverRaw (cfg : Config) (e : EventInfoBase) : FitResultsRaw :=
  cfg.kinFitProducerFit (GetFirstLeg e).1.p4 (GetSecondLeg e).1.p4
    ((GetJets e).1.getD e.selected_signal_jets.selectedBjetPair.1 default).p4
    ((GetJets e).1.getD e.selected_signal_jets.selectedBjetPair.2 default).p4
    (GetMET e).1
    (((GetJets e).1.getD e.selected_signal_jets.selectedBjetPair.1 default).resolution *
      ((GetJets e).1.getD e.selected_signal_jets.selectedBjetPair.1 default).p4.e)
    (((GetJets e).1.getD e.selected_signal_jets.selectedBjetPair.2 default).resolution *
      ((GetJets e).1.getD e.selected_signal_jets.selectedBjetPair.2 default).p4.e)

end EventInfoBase

/-! Concrete sample inputs used by the witness theorems. -/

/-- Sample configuration with simple concrete collaborators. -/
def sampleConfig : Config where
  bjet_pt_cut := 20
  bjet_eta_cut := 3
  vbf_pt_cut := 30
  vbf_eta_cut := 5
  btag := fun _ n => if n == 0 then 9 else if n == 1 then 7 else 5
  passWP := fun _ n => n != 2
  passNoiseVeto := fun _ => true
  kinFitProducerFit := fun _ _ _ _ _ _ _ => ⟨1, 3, 120⟩
  prob := fun c _ => c + 1
  calcMT2 := fun _ _ _ _ _ => 42
  higgsTT := fun _ _ => ⟨0, 0, 0, 0⟩

/-- Sample jets: the first two pass every cut, the third fails the pt cuts. -/
def sampleJet0 : JetEntry := ⟨⟨60, 30, 0, 0⟩, 50, 1, 2, 1⟩

def sampleJet1 : JetEntry := ⟨⟨55, 25, 5, 0⟩, 40, 1, 2, 1⟩

def sampleJet2 : JetEntry := ⟨⟨30, 10, 2, 0⟩, 10, 1, 2, 1⟩

/-- Forward jets: they fail the b-jet eta cut but pass the VBF pt/eta cuts. -/
def sampleJet3 : JetEntry := ⟨⟨50, 20, 10, 0⟩, 45, 4, 2, 1⟩

def sampleJet4 : JetEntry := ⟨⟨45, 15, 12, 0⟩, 40, -4, 2, 1⟩

/-- Sample event around a given jet list. -/
def sampleEvent (jets : List JetEntry) : Event where
  jets := jets
  other_jets_p4 := []
  fatJets_p4 := []
  lep_p4 := [⟨10, 1, 2, 3⟩, ⟨20, 4, 5, 6⟩]
  lep_iso := [0, 0]
  first_daughter_indexes := [0]
  second_daughter_indexes := [1]
  pfMET_p4 := ⟨5, 3, 4, 0⟩
  pfMET_cov := ⟨1, 0, 0, 1⟩
  kinFit_jetPairId := []
  kinFit_convergence := []
  kinFit_chi2 := []
  kinFit_m := []

/-- Sample event with a populated kinematic-fit side table; the canonical key
of the (0,1) pair in a 2-jet event is 1. -/
def sampleEventKinFit : Event :=
  { sampleEvent [sampleJet0, sampleJet1] with
    kinFit_jetPairId := [1], kinFit_convergence := [3], kinFit_chi2 := [7], kinFit_m := [125] }

/-- Event with two central b-candidates and two forward VBF candidates, so
both selected pairs come out defined. -/
def evVBFSample : Event := sampleEvent [sampleJet0, sampleJet1, sampleJet3, sampleJet4]

/-- Event in which exactly one jet passes the b-jet selection cuts. -/
def evOneBSample : Event := sampleEvent [sampleJet0, sampleJet2]

/-- Event whose second-ranked b-tag candidate sits at position 2 and thus
fails the sample working point. -/
def evFallbackSample : Event := sampleEvent [sampleJet0, sampleJet2, sampleJet1]

/-- The ranked b-tag candidates of `evFallbackSample`. -/
def infoTopSample : JetInfo := ⟨⟨60, 30, 0, 0⟩, 50, 1, 0, 9⟩

def infoThirdSample : JetInfo := ⟨⟨55, 25, 5, 0⟩, 40, 1, 2, 5⟩

/-- Instance over an event with no jets (hence no b-jet pair). -/
def eNoPairSample : EventInfoBase :=
  mkEventInfoBase sampleConfig (sampleEvent []) 0 Period.Run2017 JetOrdering.DeepFlavour none

/-- Instance over an event with two passing jets (b-jet pair (0,1)). -/
def ePairSample : EventInfoBase :=
  mkEventInfoBase sampleConfig (sampleEvent [sampleJet0, sampleJet1]) 0 Period.Run2017
    JetOrdering.DeepFlavour none

/-- Identity jet-energy-correction wrapper. -/
def jecIdSample : JECUncertaintiesWrapper := ⟨fun js _ _ _ met => (js, met)⟩

/-- Instance carrying a run summary with the identity corrector. -/
def eShiftSample : EventInfoBase :=
  mkEventInfoBase sampleConfig (sampleEvent [sampleJet0, sampleJet1]) 0 Period.Run2017
    JetOrdering.DeepCSV (some ⟨some jecIdSample⟩)

/-- The shifted clone produced from `eShiftSample`. -/
def sShiftSample : EventInfoBase :=
  match EventInfoBase.ApplyShift eShiftSample ⟨0⟩ UncertaintyScale.Up with
  | .ok s => s
  | .error _ => eShiftSample

/-- Instance with the jet collection already cached. -/
def eCachedSample : EventInfoBase := (EventInfoBase.GetJets ePairSample).2

/-- Instance over the kinematic-fit-table event. -/
def eKinSample : EventInfoBase :=
  mkEventInfoBase sampleConfig sampleEventKinFit 0 Period.Run2017 JetOrdering.DeepFlavour none

namespace EventInfoBase

/-! Basic unfolding lemmas for the memoizing accessors. -/

theorem GetFirstLeg_cached {e : EventInfoBase} {l : LepCandidate} (h : e.leg1 = some l) :
    GetFirstLeg e = (l, e) := by
  unfold GetFirstLeg
  rw [h]

theorem GetSecondLeg_cached {e : EventInfoBase} {l : LepCandidate} (h : e.leg2 = some l) :
    GetSecondLeg e = (l, e) := by
  unfold GetSecondLeg
  rw [h]

theorem GetJets_cached {e : EventInfoBase} {js : List JetEntry} (h : e.jets = some js) :
    GetJets e = (js, e) := by
  unfold GetJets
  rw [h]

theorem GetFatJets_cached {e : EventInfoBase} {fs : List Vec4} (h : e.fatJets = some fs) :
    GetFatJets e = (fs, e) := by
  unfold GetFatJets
  rw [h]

theorem GetMET_cached {e : EventInfoBase} {m : MET} (h : e.met = some m) :
    GetMET e = (m, e) := by
  unfold GetMET
  rw [h]

theorem GetFirstLeg_snd (e : EventInfoBase) :
    (GetFirstLeg e).2 = { e with leg1 := some (GetFirstLeg e).1 } := by
  cases e with
  | mk event si htt sel p jo l1 l2 js fs m hb kf mt =>
      cases l1 <;> simp [GetFirstLeg]

theorem GetSecondLeg_snd (e : EventInfoBase) :
    (GetSecondLeg e).2 = { e with leg2 := some (GetSecondLeg e).1 } := by
  cases e with
  | mk event si htt sel p jo l1 l2 js fs m hb kf mt =>
      cases l2 <;> simp [GetSecondLeg]

theorem GetJets_snd (e : EventInfoBase) :
    (GetJets e).2 = { e with jets := some (GetJets e).1 } := by
  cases e with
  | mk event si htt sel p jo l1 l2 js fs m hb kf mt =>
      cases js <;> simp [GetJets]

theorem GetFatJets_snd (e : EventInfoBase) :
    (GetFatJets e).2 = { e with fatJets := some (GetFatJets e).1 } := by
  cases e with
  | mk event si htt sel p jo l1 l2 js fs m hb kf mt =>
      cases fs <;> simp [GetFatJets]

theorem GetMET_snd (e : EventInfoBase) :
    (GetMET e).2 = { e with met := some (GetMET e).1 } := by
  cases e with
  | mk event si htt sel p jo l1 l2 js fs m hb kf mt =>
      cases m <;> simp [GetMET]

theorem HasBjetPair_GetJets (e : EventInfoBase) :
    HasBjetPair (GetJets e).2 = HasBjetPair e := by
  rw [GetJets_snd]
  rfl

theorem HasBjetPair_GetMET (e : EventInfoBase) :
    HasBjetPair (GetMET e).2 = HasBjetPair e := by
  rw [GetMET_snd]
  rfl

theorem HasBjetPair_GetFirstLeg (e : EventInfoBase) :
    HasBjetPair (GetFirstLeg e).2 = HasBjetPair e := by
  rw [GetFirstLeg_snd]
  rfl

theorem HasBjetPair_GetSecondLeg (e : EventInfoBase) :
    HasBjetPair (GetSecondLeg e).2 = HasBjetPair e := by
  rw [GetSecondLeg_snd]
  rfl

theorem HasBjetPair_GetLeg (e : EventInfoBase) (i : Nat) :
    HasBjetPair (GetLeg e i).2 = HasBjetPair e := by
  unfold GetLeg
  split
  · exact HasBjetPair_GetSecondLeg e
  · exact HasBjetPair_GetFirstLeg e

theorem GetBJet_ok_state {e : EventInfoBase} {i : Nat} {v : JetEntry} {e' : EventInfoBase}
    (h : GetBJet e i = .ok (v, e')) : e' = (GetJets e).2 := by
  unfold GetBJet at h
  split at h
  · cases h
  · split at h <;> (injection h with h1; injection h1 with h2 h3; exact h3.symm)

theorem GetHiggsBB_cached {e : EventInfoBase} {h0 : HiggsBBCandidate}
    (hB : HasBjetPair e = true) (hc : e.higgs_bb = some h0) :
    GetHiggsBB e = .ok (h0, e) := by
  simp [GetHiggsBB, hB, hc]

theorem GetKinFitResults_cached {cfg : Config} {e : EventInfoBase} {r : KinFitResults}
    (hB : HasBjetPair e = true) (hc : e.kinfit_results = some r) :
    GetKinFitResults cfg e = .ok (r, e) := by
  simp [GetKinFitResults, hB, hc]

theorem GetMT2_cached {cfg : Config} {e : EventInfoBase} {v : ℤ} (hc : e.mt2 = some v) :
    GetMT2 cfg e = .ok (v, e) := by
  simp [GetMT2, hc]

theorem GetHiggsBB_hasPair {e : EventInfoBase} {v : HiggsBBCandidate} {e' : EventInfoBase}
    (h : GetHiggsBB e = .ok (v, e')) : HasBjetPair e = true := by
  by_contra hB
  simp only [Bool.not_eq_true] at hB
  simp [GetHiggsBB, hB] at h

theorem GetKinFitResults_hasPair {cfg : Config} {e : EventInfoBase} {v : KinFitResults}
    {e' : EventInfoBase} (h : GetKinFitResults cfg e = .ok (v, e')) : HasBjetPair e = true := by
  by_contra hB
  simp only [Bool.not_eq_true] at hB
  simp [GetKinFitResults, hB] at h

theorem ApplyShift_eq (e : EventInfoBase) (us : UncertaintySource) (sc : UncertaintyScale) :
    ApplyShift e us sc =
      match e.summaryInfo with
      | none => .error "SummaryInfo was not provided for this event."
      | some si =>
          match si.jecUncertainties with
          | none => .error "Jec Uncertainties not stored."
          | some jec =>
              .ok { copyForShift e with
                    jets := some (jec.applyShift e.event.jets us sc e.event.other_jets_p4
                      e.event.pfMET_p4).1,
                    met := some ⟨(jec.applyShift e.event.jets us sc e.event.other_jets_p4
                      e.event.pfMET_p4).2, e.event.pfMET_cov⟩ } := by
  cases hsum : e.summaryInfo with
  | none => simp [ApplyShift, GetSummaryInfo, copyForShift, hsum]
  | some si =>
      cases hjec : si.jecUncertainties with
      | none =>
          simp [ApplyShift, GetSummaryInfo, SummaryInfo.GetJecUncertainties, copyForShift,
            hsum, hjec]
      | some jec =>
          simp only [ApplyShift, GetSummaryInfo, SummaryInfo.GetJecUncertainties,
            GetJets, GetMET, SetJets, SetMetMomentum, copyForShift, hsum, hjec]

theorem immutablePart_fields {e1 e2 : EventInfoBase} (h : immutablePart e1 = immutablePart e2) :
    e1.event = e2.event ∧ e1.summaryInfo = e2.summaryInfo ∧
    e1.selected_htt_index = e2.selected_htt_index ∧
    e1.selected_signal_jets = e2.selected_signal_jets ∧
    e1.period = e2.period ∧ e1.jet_ordering = e2.jet_ordering := by
  simpa [immutablePart, Prod.ext_iff] using h

theorem copyForShift_congr {e1 e2 : EventInfoBase} (h : immutablePart e1 = immutablePart e2) :
    copyForShift e1 = copyForShift e2 := by
  obtain ⟨he, hs, hh, hsel, hp, hj⟩ := immutablePart_fields h
  unfold copyForShift
  rw [he, hs, hh, hsel, hp, hj]

theorem ApplyShift_congr {e1 e2 : EventInfoBase} (us : UncertaintySource)
    (sc : UncertaintyScale) (h : immutablePart e1 = immutablePart e2) :
    ApplyShift e1 us sc = ApplyShift e2 us sc := by
  obtain ⟨he, hs, _, _, _, _⟩ := immutablePart_fields h
  rw [ApplyShift_eq, ApplyShift_eq, copyForShift_congr h, he, hs]

theorem GetLeg_one (e : EventInfoBase) : GetLeg e 1 = GetFirstLeg e := by
  simp [GetLeg]

theorem GetLeg_two (e : EventInfoBase) : GetLeg e 2 = GetSecondLeg e := by
  simp [GetLeg]

theorem kinfit_leg1_value (e : EventInfoBase) :
    (GetLeg (GetJets e).2 1).1 = (GetFirstLeg e).1 := by
  cases e with
  | mk ev si htt sel p jo l1 l2 js fs m hb kf mt =>
      cases js <;> cases l1 <;> simp [GetJets, GetLeg, GetFirstLeg]

theorem kinfit_leg2_value (e : EventInfoBase) :
    (GetLeg (GetLeg (GetJets e).2 1).2 2).1 = (GetSecondLeg e).1 := by
  cases e with
  | mk ev si htt sel p jo l1 l2 js fs m hb kf mt =>
      cases js <;> cases l1 <;> cases l2 <;>
        simp [GetJets, GetLeg, GetFirstLeg, GetSecondLeg]

theorem kinfit_met_value (e : EventInfoBase) :
    (GetMET (GetLeg (GetLeg (GetJets e).2 1).2 2).2).1 = (GetMET e).1 := by
  cases e with
  | mk ev si htt sel p jo l1 l2 js fs m hb kf mt =>
      cases js <;> cases l1 <;> cases l2 <;> cases m <;>
        simp [GetJets, GetLeg, GetFirstLeg, GetSecondLeg, GetMET]

end EventInfoBase

open EventInfoBase in
/-- C9: idempotence of the memoized accessors — for every instance and every
memoized derived field (legs, jets, fat jets, MET, Higgs-bb, kinematic-fit
result, MT2), the first accessor call computes and stores the field, and any
further call on the resulting instance returns the identical stored result
with the instance unchanged (no recomputation). -/
theorem claim_C9_memoized_accessors_idempotent (cfg : Config) (e : EventInfoBase) :
    (∀ v e', GetFirstLeg e = (v, e') → GetFirstLeg e' = (v, e')) ∧
    (∀ v e', GetSecondLeg e = (v, e') → GetSecondLeg e' = (v, e')) ∧
    (∀ v e', GetJets e = (v, e') → GetJets e' = (v, e')) ∧
    (∀ v e', GetFatJets e = (v, e') → GetFatJets e' = (v, e')) ∧
    (∀ v e', GetMET e = (v, e') → GetMET e' = (v, e')) ∧
    (∀ v e', GetHiggsBB e = .ok (v, e') → GetHiggsBB e' = .ok (v, e')) ∧
    (∀ v e', GetKinFitResults cfg e = .ok (v, e') → GetKinFitResults cfg e' = .ok (v, e')) ∧
    (∀ v e', GetMT2 cfg e = .ok (v, e') → GetMT2 cfg e' = .ok (v, e')) := by
  refine ⟨?_, ?_, ?_, ?_, ?_, ?_, ?_, ?_⟩
  · intro v e' h
    have h2 : e' = { e with leg1 := some v } := by
      have hs := GetFirstLeg_snd e
      rw [h] at hs
      exact hs
    subst h2
    exact GetFirstLeg_cached rfl
  · intro v e' h
    have h2 : e' = { e with leg2 := some v } := by
      have hs := GetSecondLeg_snd e
      rw [h] at hs
      exact hs
    subst h2
    exact GetSecondLeg_cached rfl
  · intro v e' h
    have h2 : e' = { e with jets := some v } := by
      have hs := GetJets_snd e
      rw [h] at hs
      exact hs
    subst h2
    exact GetJets_cached rfl
  · intro v e' h
    have h2 : e' = { e with fatJets := some v } := by
      have hs := GetFatJets_snd e
      rw [h] at hs
      exact hs
    subst h2
    exact GetFatJets_cached rfl
  · intro v e' h
    have h2 : e' = { e with met := some v } := by
      have hs := GetMET_snd e
      rw [h] at hs
      exact hs
    subst h2
    exact GetMET_cached rfl
  · intro v e' h
    have hB : HasBjetPair e = true := GetHiggsBB_hasPair h
    cases hc : e.higgs_bb with
    | some h0 =>
        rw [GetHiggsBB_cached hB hc] at h
        injection h with h1
        injection h1 with h2 h3
        subst h2
        subst h3
        exact GetHiggsBB_cached hB hc
    | none =>
        simp only [GetHiggsBB, hB, hc, Bool.not_true, Bool.false_eq_true, if_false] at h
        injection h with h1
        injection h1 with h2 h3
        subst h2
        subst h3
        exact GetHiggsBB_cached ((HasBjetPair_GetJets e).trans hB) rfl
  · intro v e' h
    have hB : HasBjetPair e = true := GetKinFitResults_hasPair h
    cases hc : e.kinfit_results with
    | some r =>
        rw [GetKinFitResults_cached hB hc] at h
        injection h with h1
        injection h1 with h2 h3
        subst h2
        subst h3
        exact GetKinFitResults_cached hB hc
    | none =>
        unfold GetKinFitResults at h
        rw [hB] at h
        simp only [Bool.not_true, Bool.false_eq_true, if_false, hc] at h
        split at h
        next i hfi =>
            injection h with h1
            injection h1 with h2 h3
            subst h2
            subst h3
            exact GetKinFitResults_cached hB rfl
        next hfi =>
            split at h
            next msg hg1 => cases h
            next b1 e1 hg1 =>
              split at h
              next msg hg2 => cases h
              next b2 e2 hg2 =>
                injection h with h1
                injection h1 with h2 h3
                subst h2
                subst h3
                have hB2 : HasBjetPair e2 = true := by
                  have he2 : e2 = (GetJets e1).2 := GetBJet_ok_state hg2
                  have he1 : e1 = (GetJets e).2 := GetBJet_ok_state hg1
                  rw [he2, HasBjetPair_GetJets, he1, HasBjetPair_GetJets]
                  exact hB
                have hBfin : HasBjetPair
                    (GetMET (GetLeg (GetLeg e2 1).2 2).2).2 = true := by
                  rw [HasBjetPair_GetMET, HasBjetPair_GetLeg, HasBjetPair_GetLeg]
                  exact hB2
                exact GetKinFitResults_cached hBfin rfl
  · intro v e' h
    unfold GetMT2 at h
    split at h
    next v0 hc =>
        injection h with h1
        injection h1 with h2 h3
        subst h2
        subst h3
        exact GetMT2_cached hc
    next hc =>
        split at h
        next msg hg => cases h
        next hv e3 hg =>
            injection h with h1
            injection h1 with h2 h3
            subst h2
            subst h3
            exact GetMT2_cached rfl

open EventInfoBase in
/-- C1: `ApplyShift` produces a new instance whose derived-field cache is
entirely empty except for the two overwritten fields — the corrected jets and
the shifted missing energy (both obtained from the record through the
external corrector, never from the source's cache) — while only the record,
the selection, the period, the ordering policy (and the summary/leg choice)
carry over; the whole result is a function of the source's immutable part, so
no value cached on the source before the shift is visible through the
clone. -/
theorem claim_C1_applyshift_fresh_cache (e : EventInfoBase) (us : UncertaintySource)
    (sc : UncertaintyScale) (s : EventInfoBase) (h : ApplyShift e us sc = .ok s) :
    s.leg1 = none ∧ s.leg2 = none ∧ s.fatJets = none ∧ s.higgs_bb = none ∧
    s.kinfit_results = none ∧ s.mt2 = none ∧
    (∃ si jec, e.summaryInfo = some si ∧ si.jecUncertainties = some jec ∧
      s.jets = some (jec.applyShift e.event.jets us sc e.event.other_jets_p4
        e.event.pfMET_p4).1 ∧
      s.met = some ⟨(jec.applyShift e.event.jets us sc e.event.other_jets_p4
        e.event.pfMET_p4).2, e.event.pfMET_cov⟩) ∧
    s.event = e.event ∧ s.selected_signal_jets = e.selected_signal_jets ∧
    s.period = e.period ∧ s.jet_ordering = e.jet_ordering ∧
    s.summaryInfo = e.summaryInfo ∧ s.selected_htt_index = e.selected_htt_index ∧
    (∀ e2, immutablePart e2 = immutablePart e → ApplyShift e2 us sc = .ok s) := by
  have h0 := h
  rw [ApplyShift_eq] at h
  split at h
  next hsum => cases h
  next si hsum =>
    split at h
    next hjec => cases h
    next jec hjec =>
      injection h with h1
      subst h1
      refine ⟨rfl, rfl, rfl, rfl, rfl, rfl, ⟨si, jec, hsum, hjec, rfl, rfl⟩,
        rfl, rfl, rfl, rfl, rfl, rfl, ?_⟩
      intro e2 h2
      rw [ApplyShift_congr us sc h2]
      exact h0

open EventInfoBase in
/-- C2: shift isolation — the entire shift operation reads nothing from the
source's derived-field cache (instances agreeing on the immutable part yield
identical shift results), and the source's already-cached fields still yield
exactly their cached values afterwards, unchanged and without recomputation.
Mutation is embedded by state passing: an accessor on the shifted clone takes
and returns only the clone, so it cannot touch the source value, and
`ApplyShift` itself takes the source by value and returns no updated source,
mirroring that the C++ body writes only through the clone. -/
theorem claim_C2_shift_isolation (cfg : Config) (us : UncertaintySource)
    (sc : UncertaintyScale) (e1 e2 : EventInfoBase)
    (h : immutablePart e1 = immutablePart e2) :
    ApplyShift e1 us sc = ApplyShift e2 us sc ∧
    (∀ j, e1.jets = some j → GetJets e1 = (j, e1)) ∧
    (∀ m, e1.met = some m → GetMET e1 = (m, e1)) ∧
    (∀ l, e1.leg1 = some l → GetFirstLeg e1 = (l, e1)) ∧
    (∀ l, e1.leg2 = some l → GetSecondLeg e1 = (l, e1)) ∧
    (∀ f, e1.fatJets = some f → GetFatJets e1 = (f, e1)) ∧
    (∀ h0, e1.higgs_bb = some h0 → HasBjetPair e1 = true → GetHiggsBB e1 = .ok (h0, e1)) ∧
    (∀ r, e1.kinfit_results = some r → HasBjetPair e1 = true →
      GetKinFitResults cfg e1 = .ok (r, e1)) ∧
    (∀ v, e1.mt2 = some v → GetMT2 cfg e1 = .ok (v, e1)) := by
  refine ⟨ApplyShift_congr us sc h, ?_, ?_, ?_, ?_, ?_, ?_, ?_, ?_⟩
  · intro j hj
    exact GetJets_cached hj
  · intro m hm
    exact GetMET_cached hm
  · intro l hl
    exact GetFirstLeg_cached hl
  · intro l hl
    exact GetSecondLeg_cached hl
  · intro f hf
    exact GetFatJets_cached hf
  · intro h0 hc hB
    exact GetHiggsBB_cached hB hc
  · intro r hc hB
    exact GetKinFitResults_cached hB hc
  · intro v hc
    exact GetMT2_cached hc

open EventInfoBase in
/-- C4: the three failure modes are raised as synchronous errors, pairwise
distinguishable, and none returns a sentinel value: the Higgs-bb accessor on
an instance without a defined b-jet pair fails with the missing-prerequisite
error, `GetBJet 3` (index outside {1,2}) fails with the b-jet lookup error —
distinguishable from the missing-pair error of the Higgs-bb accessor — and a
resonance-momentum request with both the fit-correction and the add-MET
options enabled fails with the conflicting-request error, checked before
anything else. -/
theorem claim_C4_error_taxonomy (cfg : Config) (e : EventInfoBase) :
    (HasBjetPair e = false → GetHiggsBB e = .error "Can't create H->bb candidate.") ∧
    GetBJet e 3 = .error "B jet not found." ∧
    GetResonanceMomentum cfg e true true = .error "Can't add MET and with SVfit applied." ∧
    ("Can't create H->bb candidate." : String) ≠ "B jet not found." ∧
    ("Can't create H->bb candidate." : String) ≠ "Can't add MET and with SVfit applied." ∧
    ("B jet not found." : String) ≠ "Can't add MET and with SVfit applied." := by
  refine ⟨?_, ?_, ?_, by decide, by decide, by decide⟩
  · intro hB
    simp [GetHiggsBB, hB]
  · simp [GetBJet]
  · simp [GetResonanceMomentum]

open EventInfoBase in
/-- C8: the kinematic-fit accessor — without a defined b-jet pair it fails
with the missing-prerequisite error; with a defined pair and an uncached
result it computes the canonical pair-index key and searches the record's
side table (first match): on a hit it returns the stored convergence,
chi-square and mass with the p-value derived from the stored chi-square with
2 degrees of freedom; on a miss it returns the external solver's result on
both leg momenta, both b-jet momenta, the missing-energy candidate and the
two per-jet energy resolutions (resolution fraction times jet energy), with
the p-value derived from the solver's chi-square. -/
theorem claim_C8_kinfit_lookup_and_solver (cfg : Config) (e : EventInfoBase) :
    (HasBjetPair e = false → GetKinFitResults cfg e = .error "Can't retrieve KinFit results.") ∧
    (∀ i, HasBjetPair e = true → e.kinfit_results = none →
      e.event.kinFit_jetPairId.findIdx?
        (· == CombinationPairToIndex e.selected_signal_jets.selectedBjetPair (GetNJets e)) =
        some i →
      GetKinFitResults cfg e = .ok
        (⟨e.event.kinFit_convergence.getD i 0, e.event.kinFit_chi2.getD i 0,
          cfg.prob (e.event.kinFit_chi2.getD i 0) 2, e.event.kinFit_m.getD i 0⟩,
         { e with kinfit_results := some (⟨e.event.kinFit_convergence.getD i 0,
            e.event.kinFit_chi2.getD i 0, cfg.prob (e.event.kinFit_chi2.getD i 0) 2,
            e.event.kinFit_m.getD i 0⟩ : KinFitResults) })) ∧
    (HasBjetPair e = true → e.kinfit_results = none →
      e.event.kinFit_jetPairId.findIdx?
        (· == CombinationPairToIndex e.selected_signal_jets.selectedBjetPair (GetNJets e)) =
        none →
      ∃ e', GetKinFitResults cfg e = .ok
        (⟨(solverRaw cfg e).convergence, (solverRaw cfg e).chi2,
          cfg.prob (solverRaw cfg e).chi2 2, (solverRaw cfg e).mass⟩, e')) := by
  refine ⟨?_, ?_, ?_⟩
  · intro hB
    simp [GetKinFitResults, hB]
  · intro i hB hc hf
    unfold GetKinFitResults
    simp only [hB, Bool.not_true, Bool.false_eq_true, if_false, hc, hf]
  · intro hB hc hf
    have hJ2 : (GetJets e).2.jets = some (GetJets e).1 := by rw [GetJets_snd]
    have hGJ2 : GetJets (GetJets e).2 = ((GetJets e).1, (GetJets e).2) := GetJets_cached hJ2
    have hB1 : HasBjetPair (GetJets e).2 = true := by rw [HasBjetPair_GetJets]; exact hB
    have hbj1 : GetBJet e 1 = .ok
        ((GetJets e).1.getD e.selected_signal_jets.selectedBjetPair.1 default, (GetJets e).2) := by
      simp [GetBJet, hB]
    have hpair : (GetJets e).2.selected_signal_jets = e.selected_signal_jets := by
      rw [GetJets_snd]
    have hbj2 : GetBJet (GetJets e).2 2 = .ok
        ((GetJets e).1.getD e.selected_signal_jets.selectedBjetPair.2 default, (GetJets e).2) := by
      simp [GetBJet, hB1, hGJ2, hpair]
    exact ⟨_, by
      unfold GetKinFitResults
      simp only [hB, Bool.not_true, Bool.false_eq_true, if_false, hc, hf, hbj1, hbj2]
      rw [kinfit_leg1_value, kinfit_leg2_value, kinfit_met_value]
      rfl⟩

/-- Witness for C9 at a concrete instance: the second jet access returns the
stored collection and leaves the instance unchanged. -/
theorem claim_C9_witness :
    EventInfoBase.GetJets eCachedSample =
      ((EventInfoBase.GetJets ePairSample).1, eCachedSample) :=
  (claim_C9_memoized_accessors_idempotent sampleConfig ePairSample).2.2.1
    (EventInfoBase.GetJets ePairSample).1 eCachedSample rfl

/-- Witness for C1 at a concrete instance with the identity corrector. -/
theorem claim_C1_witness :
    EventInfoBase.ApplyShift eShiftSample ⟨0⟩ UncertaintyScale.Up = .ok sShiftSample ∧
    sShiftSample.leg1 = none ∧ sShiftSample.higgs_bb = none ∧ sShiftSample.mt2 = none ∧
    sShiftSample.event = eShiftSample.event := by
  have h := claim_C1_applyshift_fresh_cache eShiftSample ⟨0⟩ UncertaintyScale.Up
    sShiftSample rfl
  exact ⟨rfl, h.1, h.2.2.2.1, h.2.2.2.2.2.1, h.2.2.2.2.2.2.2.1⟩

/-- Witness for C2 at concrete instances differing only in their caches. -/
theorem claim_C2_witness :
    EventInfoBase.ApplyShift eCachedSample ⟨0⟩ UncertaintyScale.Down =
      EventInfoBase.ApplyShift ePairSample ⟨0⟩ UncertaintyScale.Down ∧
    EventInfoBase.GetJets eCachedSample =
      ((EventInfoBase.GetJets ePairSample).1, eCachedSample) := by
  have h := claim_C2_shift_isolation sampleConfig ⟨0⟩ UncertaintyScale.Down
    eCachedSample ePairSample rfl
  exact ⟨h.1, h.2.1 (EventInfoBase.GetJets ePairSample).1 rfl⟩

/-- Witness for C4 at a concrete instance without a b-jet pair. -/
theorem claim_C4_witness :
    EventInfoBase.HasBjetPair eNoPairSample = false ∧
    EventInfoBase.GetHiggsBB eNoPairSample = .error "Can't create H->bb candidate." ∧
    EventInfoBase.GetBJet eNoPairSample 3 = .error "B jet not found." ∧
    EventInfoBase.GetResonanceMomentum sampleConfig eNoPairSample true true =
      .error "Can't add MET and with SVfit applied." := by
  have h := claim_C4_error_taxonomy sampleConfig eNoPairSample
  exact ⟨rfl, h.1 rfl, h.2.1, h.2.2.1⟩

/-- Witness for C8 at a concrete instance whose side table holds the pair
key: the stored values are returned with the derived p-value. -/
theorem claim_C8_witness :
    EventInfoBase.HasBjetPair eKinSample = true ∧ eKinSample.kinfit_results = none ∧
    EventInfoBase.GetKinFitResults sampleConfig eKinSample = .ok
      (⟨3, 7, 8, 125⟩, { eKinSample with kinfit_results := some (⟨3, 7, 8, 125⟩ : KinFitResults) }) := by
  have h := (claim_C8_kinfit_lookup_and_solver sampleConfig eKinSample).2.1 0 rfl rfl rfl
  exact ⟨rfl, rfl, h⟩

/-! Structural lemmas about the ranking and candidate-building utilities. -/

instance : IsTotal JetInfo jetBefore :=
  ⟨fun a b => by
    unfold jetBefore
    omega⟩

instance : IsTrans JetInfo jetBefore :=
  ⟨fun a b c hab hbc => by
    unfold jetBefore at hab hbc ⊢
    omega⟩

theorem OrderJets_filter_true (l : List JetInfo) (pt eta : ℤ) :
    (l.filter fun j => !true || (decide (pt < j.pt) && decide (qabs j.eta < eta))) =
      l.filter fun j => decide (pt < j.pt) && decide (qabs j.eta < eta) :=
  List.filter_congr fun x _ => by simp

theorem OrderJets_perm (l : List JetInfo) (pt eta : ℤ) :
    (OrderJets l true pt eta).Perm
      (l.filter fun j => decide (pt < j.pt) && decide (qabs j.eta < eta)) := by
  unfold OrderJets
  rw [OrderJets_filter_true]
  exact List.perm_insertionSort jetBefore _

theorem mem_OrderJets {l : List JetInfo} {pt eta : ℤ} {j : JetInfo} :
    j ∈ OrderJets l true pt eta ↔ j ∈ l ∧ pt < j.pt ∧ qabs j.eta < eta := by
  rw [(OrderJets_perm l pt eta).mem_iff, List.mem_filter]
  simp

theorem OrderJets_sorted (l : List JetInfo) (pt eta : ℤ) :
    (OrderJets l true pt eta).Sorted jetBefore := by
  unfold OrderJets
  exact List.sorted_insertionSort jetBefore _

theorem OrderJets_index_nodup (l : List JetInfo) (pt eta : ℤ)
    (h : (l.map JetInfo.index).Nodup) :
    ((OrderJets l true pt eta).map JetInfo.index).Nodup := by
  have hp := ((OrderJets_perm l pt eta).map JetInfo.index).symm
  exact hp.nodup (((List.filter_sublist l).map JetInfo.index).nodup h)

theorem createJetInfoEntry_eq_some {cfg : Config} {ev : Event} {sel : SelectedSignalJets}
    {ub : Bool} {nj : Nat × JetEntry} {x : JetInfo} :
    createJetInfoEntry cfg ev sel ub nj = some x ↔
      sel.isSelectedBjet nj.1 = false ∧ sel.isSelectedVBFjet nj.1 = false ∧
      cfg.passNoiseVeto nj.2 = true ∧ (nj.2.pu_id &&& 2 == 0) = false ∧
      x = ⟨nj.2.p4, nj.2.pt, nj.2.eta, nj.1, if ub then cfg.btag ev nj.1 else nj.2.pt⟩ := by
  unfold createJetInfoEntry
  split_ifs with h1 h2 h3 h4 <;> simp_all <;> exact eq_comm

theorem mem_CreateJetInfo {cfg : Config} {ev : Event} {sel : SelectedSignalJets} {ub : Bool}
    {x : JetInfo} :
    x ∈ CreateJetInfo cfg ev sel ub ↔
      ∃ nj ∈ ev.jets.enum, createJetInfoEntry cfg ev sel ub nj = some x := by
  unfold CreateJetInfo
  exact List.mem_filterMap

theorem CreateJetInfo_index_facts {cfg : Config} {ev : Event} {sel : SelectedSignalJets}
    {ub : Bool} {x : JetInfo} (h : x ∈ CreateJetInfo cfg ev sel ub) :
    x.index < ev.jets.length ∧ sel.isSelectedBjet x.index = false ∧
      sel.isSelectedVBFjet x.index = false := by
  obtain ⟨nj, hmem, hsome⟩ := mem_CreateJetInfo.1 h
  obtain ⟨h1, h2, h3, h4, rfl⟩ := createJetInfoEntry_eq_some.1 hsome
  have hlt : nj.1 < ev.jets.length := (List.getElem?_eq_some.1 (List.mem_enum_iff_getElem?.1 hmem)).1
  exact ⟨hlt, h1, h2⟩

theorem filterMap_index_sublist {f : Nat × JetEntry → Option JetInfo}
    (hf : ∀ a x, f a = some x → x.index = a.1) (l : List (Nat × JetEntry)) :
    ((l.filterMap f).map JetInfo.index).Sublist (l.map Prod.fst) := by
  induction l with
  | nil => simp
  | cons a l ih =>
      rw [List.filterMap_cons]
      cases hfa : f a with
      | none =>
          rw [List.map_cons]
          exact ih.cons a.1
      | some x =>
          rw [List.map_cons, List.map_cons, hf a x hfa]
          exact ih.cons₂ a.1

theorem CreateJetInfo_index_sublist (cfg : Config) (ev : Event) (sel : SelectedSignalJets)
    (ub : Bool) :
    ((CreateJetInfo cfg ev sel ub).map JetInfo.index).Sublist (List.range ev.jets.length) := by
  have hf : ∀ a x, createJetInfoEntry cfg ev sel ub a = some x → x.index = a.1 := by
    intro a x hx
    obtain ⟨_, _, _, _, rfl⟩ := createJetInfoEntry_eq_some.1 hx
    rfl
  have h := filterMap_index_sublist hf ev.jets.enum
  rwa [List.enum_map_fst] at h

theorem CreateJetInfo_index_nodup (cfg : Config) (ev : Event) (sel : SelectedSignalJets)
    (ub : Bool) :
    ((CreateJetInfo cfg ev sel ub).map JetInfo.index).Nodup :=
  (CreateJetInfo_index_sublist cfg ev sel ub).nodup (List.nodup_range _)

theorem mem_upperPairs {l : List JetInfo} {p : JetInfo × JetInfo} (h : p ∈ upperPairs l) :
    ∃ l1 l2 l3, l = l1 ++ p.1 :: l2 ++ p.2 :: l3 := by
  induction l with
  | nil => cases h
  | cons x xs ih =>
      rw [upperPairs] at h
      rcases List.mem_append.1 h with h1 | h2
      · obtain ⟨y, hy, hxy⟩ := List.mem_map.1 h1
        obtain ⟨s, t, rfl⟩ := List.append_of_mem hy
        subst hxy
        exact ⟨[], s, t, rfl⟩
      · obtain ⟨l1, l2, l3, rfl⟩ := ih h2
        exact ⟨x :: l1, l2, l3, rfl⟩

theorem upperPairs_index_ne {l : List JetInfo} (hnd : (l.map JetInfo.index).Nodup)
    {p : JetInfo × JetInfo} (h : p ∈ upperPairs l) : p.1.index ≠ p.2.index := by
  obtain ⟨l1, l2, l3, rfl⟩ := mem_upperPairs h
  rw [List.map_append, List.map_cons, List.map_append, List.map_cons] at hnd
  have hx : List.Sublist [p.1.index]
      (List.map JetInfo.index l1 ++ p.1.index :: List.map JetInfo.index l2) :=
    ((List.nil_sublist _).cons₂ _).trans (List.sublist_append_right _ _)
  have hy : List.Sublist [p.2.index] (p.2.index :: List.map JetInfo.index l3) :=
    (List.nil_sublist _).cons₂ _
  have hpair : ([p.1.index, p.2.index] : List Nat).Nodup := (hx.append hy).nodup hnd
  simpa using hpair

theorem mem_of_mem_upperPairs {l : List JetInfo} {p : JetInfo × JetInfo}
    (h : p ∈ upperPairs l) : p.1 ∈ l ∧ p.2 ∈ l := by
  obtain ⟨l1, l2, l3, rfl⟩ := mem_upperPairs h
  exact ⟨by simp, by simp⟩

theorem vbfFold_go (l : List (JetInfo × JetInfo)) : ∀ (m : ℤ) (p : Nat × Nat),
    (l.foldl vbfPairStep (some m, p) = (some m, p) ∧ ∀ q ∈ l, massOf q ≤ m) ∨
    (∃ l1 pr l2, l = l1 ++ pr :: l2 ∧
      l.foldl vbfPairStep (some m, p) = (some (massOf pr), (pr.1.index, pr.2.index)) ∧
      m < massOf pr ∧ (∀ q ∈ l1, massOf q < massOf pr) ∧ ∀ q ∈ l, massOf q ≤ massOf pr) := by
  induction l with
  | nil =>
      intro m p
      left
      simp
  | cons a l ih =>
      intro m p
      by_cases hlt : m < massOf a
      · have hstep : vbfPairStep (some m, p) a = (some (massOf a), (a.1.index, a.2.index)) := by
          simp only [vbfPairStep, massOf,
            if_pos (show m < (a.1.p4 + a.2.p4).massSq from hlt)]
        rw [List.foldl_cons, hstep]
        rcases ih (massOf a) (a.1.index, a.2.index) with ⟨heq, hle⟩ |
          ⟨l1, pr, l2, hsplit, heq, hm, hl1, hall⟩
        · right
          refine ⟨[], a, l, rfl, heq, hlt, by simp, ?_⟩
          intro q hq
          rcases List.mem_cons.1 hq with rfl | hq
          · exact le_refl _
          · exact hle q hq
        · right
          subst hsplit
          refine ⟨a :: l1, pr, l2, rfl, heq, hlt.trans hm, ?_, ?_⟩
          · intro q hq
            rcases List.mem_cons.1 hq with rfl | hq
            · exact hm
            · exact hl1 q hq
          · intro q hq
            rcases List.mem_cons.1 hq with rfl | hq
            · exact le_of_lt hm
            · exact hall q hq
      · have hstep : vbfPairStep (some m, p) a = (some m, p) := by
          simp only [vbfPairStep,
            if_neg (show ¬ m < (a.1.p4 + a.2.p4).massSq from hlt)]
        rw [List.foldl_cons, hstep]
        rcases ih m p with ⟨heq, hle⟩ | ⟨l1, pr, l2, hsplit, heq, hm, hl1, hall⟩
        · left
          refine ⟨heq, ?_⟩
          intro q hq
          rcases List.mem_cons.1 hq with rfl | hq
          · exact le_of_not_lt hlt
          · exact hle q hq
        · right
          subst hsplit
          refine ⟨a :: l1, pr, l2, rfl, heq, hm, ?_, ?_⟩
          · intro q hq
            rcases List.mem_cons.1 hq with rfl | hq
            · exact lt_of_le_of_lt (le_of_not_lt hlt) hm
            · exact hl1 q hq
          · intro q hq
            rcases List.mem_cons.1 hq with rfl | hq
            · exact le_trans (le_of_not_lt hlt) (le_of_lt hm)
            · exact hall q hq

theorem selectVBFPair_spec (v : List JetInfo) :
    (upperPairs v = [] ∧ selectVBFPair v = UndefinedJetPair) ∨
    (∃ l1 pr l2, upperPairs v = l1 ++ pr :: l2 ∧
      selectVBFPair v = (pr.1.index, pr.2.index) ∧
      (∀ q ∈ upperPairs v, massOf q ≤ massOf pr) ∧ ∀ q ∈ l1, massOf q < massOf pr) := by
  cases hu : upperPairs v with
  | nil =>
      left
      exact ⟨rfl, by simp [selectVBFPair, hu]⟩
  | cons a t =>
      right
      have hstep : vbfPairStep (none, UndefinedJetPair) a =
          (some (massOf a), (a.1.index, a.2.index)) := by
        simp only [vbfPairStep, massOf, UndefinedJetPair]
      have hsel : selectVBFPair v = ((a :: t).foldl vbfPairStep (none, UndefinedJetPair)).2 := by
        rw [selectVBFPair, hu]
      rw [List.foldl_cons, hstep] at hsel
      rcases vbfFold_go t (massOf a) (a.1.index, a.2.index) with ⟨heq, hle⟩ |
        ⟨l1, pr, l2, hsplit, heq, hm, hl1, hall⟩
      · refine ⟨[], a, t, rfl, by rw [hsel, heq], ?_, by intro q hq; cases hq⟩
        intro q hq
        rcases List.mem_cons.1 hq with rfl | hq
        · exact le_refl _
        · exact hle q hq
      · refine ⟨a :: l1, pr, l2, by rw [hsplit]; rfl, by rw [hsel, heq], ?_, ?_⟩
        · intro q hq
          rcases List.mem_cons.1 hq with rfl | hq
          · exact le_of_lt hm
          · exact hall q hq
        · intro q hq
          rcases List.mem_cons.1 hq with rfl | hq
          · exact hm
          · exact hl1 q hq

theorem not_undefIdx_lt {n : Nat} (hlen : n ≤ undefIdx) : ¬ undefIdx < n := by
  omega

theorem isSelectedBjet_init_false {n njets : Nat} (hn : n < njets) (hlen : njets ≤ undefIdx) :
    SelectedSignalJets.isSelectedBjet ⟨UndefinedJetPair, UndefinedJetPair, 0⟩ n = false := by
  simp only [SelectedSignalJets.isSelectedBjet, UndefinedJetPair, Bool.or_eq_false_iff,
    beq_eq_false_iff_ne, ne_eq]
  omega

theorem isSelectedVBFjet_init_false {n njets : Nat} (hn : n < njets) (hlen : njets ≤ undefIdx) :
    SelectedSignalJets.isSelectedVBFjet ⟨UndefinedJetPair, UndefinedJetPair, 0⟩ n = false := by
  simp only [SelectedSignalJets.isSelectedVBFjet, UndefinedJetPair, Bool.or_eq_false_iff,
    beq_eq_false_iff_ne, ne_eq]
  omega

theorem bjetsOrderedInit_index_lt {cfg : Config} {ev : Event} {j : JetInfo}
    (h : j ∈ bjetsOrderedInit cfg ev) : j.index < ev.jets.length :=
  (CreateJetInfo_index_facts (mem_OrderJets.1 h).1).1

theorem newB_index_lt {cfg : Config} {ev : Event} {sel : SelectedSignalJets} {j : JetInfo}
    (h : j ∈ OrderJets (CreateJetInfo cfg ev sel true) true cfg.bjet_pt_cut cfg.bjet_eta_cut) :
    j.index < ev.jets.length :=
  (CreateJetInfo_index_facts (mem_OrderJets.1 h).1).1

theorem bjetsOrderedInit_index_nodup (cfg : Config) (ev : Event) :
    ((bjetsOrderedInit cfg ev).map JetInfo.index).Nodup :=
  OrderJets_index_nodup _ _ _ (CreateJetInfo_index_nodup cfg ev _ true)

theorem bjetsOrderedInit_head_ne {cfg : Config} {ev : Event} {j0 j1 : JetInfo}
    {rest : List JetInfo} (h : bjetsOrderedInit cfg ev = j0 :: j1 :: rest) :
    j0.index ≠ j1.index := by
  have hnd := bjetsOrderedInit_index_nodup cfg ev
  rw [h] at hnd
  have := (List.nodup_cons.1 hnd).1
  intro he
  exact this (by rw [List.map_cons, he]; exact List.mem_cons_self _ _)

theorem mem_bjetsOrderedInit_of_fallback {cfg : Config} {ev : Event}
    {sel : SelectedSignalJets} {j : JetInfo} (hlen : ev.jets.length ≤ undefIdx)
    (h : j ∈ OrderJets (CreateJetInfo cfg ev sel true) true cfg.bjet_pt_cut cfg.bjet_eta_cut) :
    j ∈ bjetsOrderedInit cfg ev := by
  rcases mem_OrderJets.1 h with ⟨hmem, hpt, heta⟩
  obtain ⟨nj, hnj, hsome⟩ := mem_CreateJetInfo.1 hmem
  obtain ⟨_, _, h3, h4, rfl⟩ := createJetInfoEntry_eq_some.1 hsome
  have hidx : nj.1 < ev.jets.length :=
    (List.getElem?_eq_some.1 (List.mem_enum_iff_getElem?.1 hnj)).1
  apply mem_OrderJets.2
  refine ⟨?_, hpt, heta⟩
  apply mem_CreateJetInfo.2
  refine ⟨nj, hnj, ?_⟩
  rw [createJetInfoEntry_eq_some]
  exact ⟨isSelectedBjet_init_false hidx hlen, isSelectedVBFjet_init_false hidx hlen,
    h3, h4, rfl⟩

theorem createJetInfo_init_aux (cfg : Config) (ev : Event) (l : List (Nat × JetEntry)) :
    (∀ nj ∈ l, nj.1 ≠ undefIdx) →
      l.filterMap (createJetInfoEntry cfg ev ⟨UndefinedJetPair, UndefinedJetPair, 0⟩ true) =
        (l.filter fun nj => cfg.passNoiseVeto nj.2 && !(nj.2.pu_id &&& 2 == 0)).map
          (mkBJetInfo cfg ev) := by
  induction l with
  | nil => intro _; rfl
  | cons a l ih =>
      intro hl
      have ha : a.1 ≠ undefIdx := hl a (List.mem_cons_self _ _)
      have hrest : ∀ nj ∈ l, nj.1 ≠ undefIdx := fun nj hm => hl nj (List.mem_cons_of_mem _ hm)
      have hsel : SelectedSignalJets.isSelectedBjet ⟨UndefinedJetPair, UndefinedJetPair, 0⟩
          a.1 = false := by
        simp only [SelectedSignalJets.isSelectedBjet, UndefinedJetPair, Bool.or_eq_false_iff,
          beq_eq_false_iff_ne, ne_eq]
        omega
      have hsel2 : SelectedSignalJets.isSelectedVBFjet ⟨UndefinedJetPair, UndefinedJetPair, 0⟩
          a.1 = false := by
        simp only [SelectedSignalJets.isSelectedVBFjet, UndefinedJetPair, Bool.or_eq_false_iff,
          beq_eq_false_iff_ne, ne_eq]
        omega
      rw [List.filterMap_cons, List.filter_cons]
      by_cases hc : cfg.passNoiseVeto a.2 = true
      · by_cases hp : (a.2.pu_id &&& 2 == 0) = true
        · have hent : createJetInfoEntry cfg ev ⟨UndefinedJetPair, UndefinedJetPair, 0⟩ true
              a = none := by
            simp [createJetInfoEntry, hsel, hsel2, hc, hp]
          rw [hent]
          simp only [hc, hp, Bool.not_true, Bool.and_false, Bool.false_eq_true, if_false]
          exact ih hrest
        · have hp' : (a.2.pu_id &&& 2 == 0) = false := by simpa using hp
          have hent : createJetInfoEntry cfg ev ⟨UndefinedJetPair, UndefinedJetPair, 0⟩ true
              a = some (mkBJetInfo cfg ev a) := by
            rw [createJetInfoEntry_eq_some]
            exact ⟨hsel, hsel2, hc, hp', rfl⟩
          rw [hent]
          simp only [hc, hp', Bool.not_false, Bool.and_true, if_true, List.map_cons]
          rw [ih hrest]
      · have hc' : cfg.passNoiseVeto a.2 = false := by simpa using hc
        have hent : createJetInfoEntry cfg ev ⟨UndefinedJetPair, UndefinedJetPair, 0⟩ true
            a = none := by
          simp [createJetInfoEntry, hsel, hsel2, hc']
        rw [hent]
        simp only [hc', Bool.false_and, Bool.false_eq_true, if_false]
        exact ih hrest

theorem CreateJetInfo_init_eq (cfg : Config) (ev : Event) (hlen : ev.jets.length ≤ undefIdx) :
    CreateJetInfo cfg ev ⟨UndefinedJetPair, UndefinedJetPair, 0⟩ true =
      (ev.jets.enum.filter fun nj => cfg.passNoiseVeto nj.2 && !(nj.2.pu_id &&& 2 == 0)).map
        (mkBJetInfo cfg ev) := by
  apply createJetInfo_init_aux
  intro nj hm
  have hidx : nj.1 < ev.jets.length :=
    (List.getElem?_eq_some.1 (List.mem_enum_iff_getElem?.1 hm)).1
  omega

theorem bjetsOrderedInit_perm (cfg : Config) (ev : Event)
    (hlen : ev.jets.length ≤ undefIdx) :
    (bjetsOrderedInit cfg ev).Perm
      ((ev.jets.enum.filter (passesBCuts cfg)).map (mkBJetInfo cfg ev)) := by
  have h2 : (ev.jets.enum.filter fun a =>
      ((fun j => decide (cfg.bjet_pt_cut < j.pt) && decide (qabs j.eta < cfg.bjet_eta_cut)) ∘
        mkBJetInfo cfg ev) a && (cfg.passNoiseVeto a.2 && !(a.2.pu_id &&& 2 == 0))) =
      ev.jets.enum.filter (passesBCuts cfg) := by
    apply List.filter_congr
    intro x _
    simp only [Function.comp_apply, mkBJetInfo, passesBCuts]
    cases cfg.passNoiseVeto x.2 <;> cases hpu : (x.2.pu_id &&& 2 == 0) <;>
      cases hd1 : decide (cfg.bjet_pt_cut < x.2.pt) <;>
      cases hd2 : decide (qabs x.2.eta < cfg.bjet_eta_cut) <;> rfl
  unfold bjetsOrderedInit
  rw [CreateJetInfo_init_eq cfg ev hlen]
  refine (OrderJets_perm _ _ _).trans ?_
  rw [List.filter_map, List.filter_filter, h2]

theorem HasBjetPair_iff {s : SelectedSignalJets} {n : Nat} :
    s.HasBjetPair n = true ↔ s.selectedBjetPair.1 < n ∧ s.selectedBjetPair.2 < n := by
  simp [SelectedSignalJets.HasBjetPair]

theorem HasVBFPair_iff {s : SelectedSignalJets} {n : Nat} :
    s.HasVBFPair n = true ↔ s.selectedVBFjetPair.1 < n ∧ s.selectedVBFjetPair.2 < n := by
  simp [SelectedSignalJets.HasVBFPair]

theorem isSelectedBjet_false_iff {s : SelectedSignalJets} {n : Nat} :
    s.isSelectedBjet n = false ↔ s.selectedBjetPair.1 ≠ n ∧ s.selectedBjetPair.2 ≠ n := by
  simp [SelectedSignalJets.isSelectedBjet]

theorem isSelectedVBFjet_false_iff {s : SelectedSignalJets} {n : Nat} :
    s.isSelectedVBFjet n = false ↔ s.selectedVBFjetPair.1 ≠ n ∧ s.selectedVBFjetPair.2 ≠ n := by
  simp [SelectedSignalJets.isSelectedVBFjet]

theorem selAfterVBFStage_bjet (cfg : Config) (ev : Event) :
    (selAfterVBFStage cfg ev).selectedBjetPair = (selAfterBStage cfg ev).selectedBjetPair := rfl

theorem selAfterVBFStage_vbf (cfg : Config) (ev : Event) :
    (selAfterVBFStage cfg ev).selectedVBFjetPair =
      selectVBFPair (vbfOrderedOf cfg ev (selAfterBStage cfg ev)) := rfl

theorem selectVBFPair_cases_of (cfg : Config) (ev : Event) (sel : SelectedSignalJets) :
    selectVBFPair (vbfOrderedOf cfg ev sel) = UndefinedJetPair ∨
    ∃ a b : Nat, selectVBFPair (vbfOrderedOf cfg ev sel) = (a, b) ∧ a ≠ b ∧
      a < ev.jets.length ∧ b < ev.jets.length ∧
      sel.isSelectedBjet a = false ∧ sel.isSelectedBjet b = false := by
  rcases selectVBFPair_spec (vbfOrderedOf cfg ev sel) with ⟨_, hsel⟩ |
    ⟨l1, pr, l2, hsplit, hsel, _, _⟩
  · left
    exact hsel
  · right
    have hpr : pr ∈ upperPairs (vbfOrderedOf cfg ev sel) := by
      rw [hsplit]
      exact List.mem_append.2 (Or.inr (List.mem_cons_self _ _))
    have hnd : ((vbfOrderedOf cfg ev sel).map JetInfo.index).Nodup := by
      unfold vbfOrderedOf
      exact OrderJets_index_nodup _ _ _ (CreateJetInfo_index_nodup cfg ev sel false)
    have hne := upperPairs_index_ne hnd hpr
    obtain ⟨hm1, hm2⟩ := mem_of_mem_upperPairs hpr
    unfold vbfOrderedOf at hm1 hm2
    have hf1 := CreateJetInfo_index_facts (mem_OrderJets.1 hm1).1
    have hf2 := CreateJetInfo_index_facts (mem_OrderJets.1 hm2).1
    exact ⟨pr.1.index, pr.2.index, hsel, hne, hf1.1, hf2.1, hf1.2.1, hf2.2.1⟩

theorem selAfterBStage_shape (cfg : Config) (ev : Event) :
    (bjetsOrderedInit cfg ev = [] ∧
      selAfterBStage cfg ev = ⟨UndefinedJetPair, UndefinedJetPair, 0⟩) ∨
    (∃ j0, bjetsOrderedInit cfg ev = [j0] ∧
      selAfterBStage cfg ev = ⟨(j0.index, undefIdx), UndefinedJetPair, 1⟩) ∨
    (∃ j0 j1 rest, bjetsOrderedInit cfg ev = j0 :: j1 :: rest ∧
      selAfterBStage cfg ev =
        ⟨(j0.index, if cfg.passWP ev j1.index then j1.index else undefIdx),
         UndefinedJetPair, (j0 :: j1 :: rest).length⟩) := by
  cases hb : bjetsOrderedInit cfg ev with
  | nil =>
      left
      exact ⟨rfl, by simp only [selAfterBStage, hb]⟩
  | cons j0 rest0 =>
      cases rest0 with
      | nil =>
          right
          left
          exact ⟨j0, rfl, by simp only [selAfterBStage, hb]⟩
      | cons j1 rest1 =>
          right
          right
          exact ⟨j0, j1, rest1, rfl, by simp only [selAfterBStage, hb]⟩

theorem SelectSignalJets_shape (cfg : Config) (ev : Event) :
    (SelectSignalJets cfg ev = selAfterVBFStage cfg ev ∧
      (selAfterVBFStage cfg ev).HasBjetPair ev.jets.length = true) ∨
    ((selAfterVBFStage cfg ev).HasBjetPair ev.jets.length = false ∧
      ((∃ j rest,
          OrderJets (CreateJetInfo cfg ev (selAfterVBFStage cfg ev) true) true
            cfg.bjet_pt_cut cfg.bjet_eta_cut = j :: rest ∧
          SelectSignalJets cfg ev =
            { selAfterVBFStage cfg ev with
              selectedBjetPair := ((selAfterVBFStage cfg ev).selectedBjetPair.1, j.index) }) ∨
       (OrderJets (CreateJetInfo cfg ev (selAfterVBFStage cfg ev) true) true
            cfg.bjet_pt_cut cfg.bjet_eta_cut = [] ∧
         ((∃ j0 j1 rest, bjetsOrderedInit cfg ev = j0 :: j1 :: rest ∧
            SelectSignalJets cfg ev =
              { selAfterVBFStage cfg ev with
                selectedVBFjetPair := UndefinedJetPair,
                selectedBjetPair := ((selAfterVBFStage cfg ev).selectedBjetPair.1, j1.index) }) ∨
          ((bjetsOrderedInit cfg ev).length ≤ 1 ∧
            SelectSignalJets cfg ev =
              { selAfterVBFStage cfg ev with selectedVBFjetPair := UndefinedJetPair }))))) := by
  by_cases hB : (selAfterVBFStage cfg ev).HasBjetPair ev.jets.length = true
  · left
    exact ⟨by simp only [SelectSignalJets, if_pos hB], hB⟩
  · right
    refine ⟨by simpa using hB, ?_⟩
    cases hnew : OrderJets (CreateJetInfo cfg ev (selAfterVBFStage cfg ev) true) true
        cfg.bjet_pt_cut cfg.bjet_eta_cut with
    | cons j rest =>
        left
        exact ⟨j, rest, rfl, by simp only [SelectSignalJets, if_neg hB, hnew]⟩
    | nil =>
        right
        refine ⟨rfl, ?_⟩
        cases hb : bjetsOrderedInit cfg ev with
        | nil =>
            right
            exact ⟨by simp, by simp only [SelectSignalJets, if_neg hB, hnew, hb]⟩
        | cons j0 rest0 =>
            cases rest0 with
            | nil =>
                right
                exact ⟨by simp, by simp only [SelectSignalJets, if_neg hB, hnew, hb]⟩
            | cons j1 rest1 =>
                left
                exact ⟨j0, j1, rest1, rfl, by simp only [SelectSignalJets, if_neg hB, hnew, hb]⟩

theorem SelectSignalJets_vbf_cases (cfg : Config) (ev : Event) :
    (SelectSignalJets cfg ev).selectedVBFjetPair =
        selectVBFPair (vbfOrderedOf cfg ev (selAfterBStage cfg ev)) ∨
    (SelectSignalJets cfg ev).selectedVBFjetPair = UndefinedJetPair := by
  by_cases hB : (selAfterVBFStage cfg ev).HasBjetPair ev.jets.length = true
  · left
    simp only [SelectSignalJets, if_pos hB]
    rfl
  · simp only [SelectSignalJets, if_neg hB]
    cases hnew : OrderJets (CreateJetInfo cfg ev (selAfterVBFStage cfg ev) true) true
        cfg.bjet_pt_cut cfg.bjet_eta_cut with
    | cons j rest =>
        left
        rfl
    | nil =>
        cases hb : bjetsOrderedInit cfg ev with
        | nil => right; rfl
        | cons j0 rest =>
            cases rest with
            | nil => right; rfl
            | cons j1 rest2 => right; rfl

/-- C3 (amended): pair-validity invariants of `SelectSignalJets` — a defined
b-jet pair has distinct indices, a defined VBF pair has distinct indices, the
VBF pair is never partial (its two slots are valid positions together or not
at all), and the b-jet pair is never second-only-partial (a valid second slot
implies a valid first slot).  The b-jet pair may be first-only-partial — the
first slot filled while the second holds the undefined sentinel — which is
what the counterexample exhibits and why the original claim is amended. -/
theorem claim_C3_amended_pair_invariants (cfg : Config) (ev : Event)
    (hlen : ev.jets.length ≤ undefIdx) :
    ((SelectSignalJets cfg ev).HasBjetPair ev.jets.length = true →
      (SelectSignalJets cfg ev).selectedBjetPair.1 ≠
        (SelectSignalJets cfg ev).selectedBjetPair.2) ∧
    ((SelectSignalJets cfg ev).HasVBFPair ev.jets.length = true →
      (SelectSignalJets cfg ev).selectedVBFjetPair.1 ≠
        (SelectSignalJets cfg ev).selectedVBFjetPair.2) ∧
    ((SelectSignalJets cfg ev).selectedVBFjetPair.1 < ev.jets.length ↔
      (SelectSignalJets cfg ev).selectedVBFjetPair.2 < ev.jets.length) ∧
    ((SelectSignalJets cfg ev).selectedBjetPair.2 < ev.jets.length →
      (SelectSignalJets cfg ev).selectedBjetPair.1 < ev.jets.length) := by
  have hVBF : (SelectSignalJets cfg ev).selectedVBFjetPair = UndefinedJetPair ∨
      ∃ a b, (SelectSignalJets cfg ev).selectedVBFjetPair = (a, b) ∧ a ≠ b ∧
        a < ev.jets.length ∧ b < ev.jets.length := by
    rcases SelectSignalJets_vbf_cases cfg ev with hv | hv
    · rcases selectVBFPair_cases_of cfg ev (selAfterBStage cfg ev) with hc |
        ⟨a, b, hc, hne, ha, hb2, _, _⟩
      · left
        rw [hv, hc]
      · right
        exact ⟨a, b, by rw [hv, hc], hne, ha, hb2⟩
    · left
      exact hv
  refine ⟨?_, ?_, ?_, ?_⟩
  · -- defined b-jet pair has distinct indices
    intro h
    rcases SelectSignalJets_shape cfg ev with ⟨hres, hB⟩ | ⟨hB', hcase⟩
    · have hpair : (SelectSignalJets cfg ev).selectedBjetPair =
          (selAfterBStage cfg ev).selectedBjetPair := by
        rw [hres]
        rfl
      rcases selAfterBStage_shape cfg ev with ⟨hb, hsel⟩ | ⟨j0, hb, hsel⟩ |
        ⟨j0, j1, rest, hb, hsel⟩
      · have h1 := (HasBjetPair_iff.1 h).1
        rw [hpair, hsel] at h1
        exact absurd h1 (not_undefIdx_lt hlen)
      · have h2 := (HasBjetPair_iff.1 h).2
        rw [hpair, hsel] at h2
        exact absurd h2 (not_undefIdx_lt hlen)
      · by_cases hW : cfg.passWP ev j1.index = true
        · rw [hpair, hsel]
          simpa [hW] using bjetsOrderedInit_head_ne hb
        · have h2 := (HasBjetPair_iff.1 h).2
          rw [hpair, hsel] at h2
          rw [if_neg hW] at h2
          exact absurd h2 (not_undefIdx_lt hlen)
    · rcases hcase with ⟨j, rest, hnew, hres⟩ | ⟨hnew, hcase2⟩
      · have hj : j ∈ OrderJets (CreateJetInfo cfg ev (selAfterVBFStage cfg ev) true) true
            cfg.bjet_pt_cut cfg.bjet_eta_cut := by
          rw [hnew]
          exact List.mem_cons_self _ _
        have hfacts := CreateJetInfo_index_facts (mem_OrderJets.1 hj).1
        have hne1 := (isSelectedBjet_false_iff.1 hfacts.2.1).1
        rw [hres]
        simpa using hne1
      · rcases hcase2 with ⟨j0, j1, rest, hb, hres⟩ | ⟨hblen, hres⟩
        · have hne := bjetsOrderedInit_head_ne hb
          have hfst : (selAfterVBFStage cfg ev).selectedBjetPair.1 = j0.index := by
            rw [selAfterVBFStage_bjet]
            simp only [selAfterBStage, hb]
          rw [hres]
          simpa [hfst] using hne
        · have hpair : (SelectSignalJets cfg ev).selectedBjetPair =
              (selAfterBStage cfg ev).selectedBjetPair := by
            rw [hres]
            rfl
          rcases selAfterBStage_shape cfg ev with ⟨hb, hsel⟩ | ⟨j0, hb, hsel⟩ |
            ⟨j0, j1, rest, hb, hsel⟩
          · have h1 := (HasBjetPair_iff.1 h).1
            rw [hpair, hsel] at h1
            exact absurd h1 (not_undefIdx_lt hlen)
          · have h2 := (HasBjetPair_iff.1 h).2
            rw [hpair, hsel] at h2
            exact absurd h2 (not_undefIdx_lt hlen)
          · rw [hb] at hblen
            simp at hblen
  · -- defined VBF pair has distinct indices
    intro h
    rcases hVBF with h0 | ⟨a, b, heq, hne, _, _⟩
    · have h1 := (HasVBFPair_iff.1 h).1
      rw [h0] at h1
      exact absurd h1 (not_undefIdx_lt hlen)
    · rw [heq]
      exact hne
  · -- the VBF pair is never partial
    rcases hVBF with h0 | ⟨a, b, heq, _, ha, hb2⟩
    · rw [h0]
      exact Iff.rfl
    · rw [heq]
      exact iff_of_true ha hb2
  · -- a valid second b-jet slot implies a valid first slot
    intro h2nd
    rcases SelectSignalJets_shape cfg ev with ⟨hres, hB⟩ | ⟨hB', hcase⟩
    · have hpair : (SelectSignalJets cfg ev).selectedBjetPair =
          (selAfterBStage cfg ev).selectedBjetPair := by
        rw [hres]
        rfl
      rcases selAfterBStage_shape cfg ev with ⟨hb, hsel⟩ | ⟨j0, hb, hsel⟩ |
        ⟨j0, j1, rest, hb, hsel⟩
      · rw [hpair, hsel] at h2nd
        exact absurd h2nd (not_undefIdx_lt hlen)
      · rw [hpair, hsel] at h2nd
        exact absurd h2nd (not_undefIdx_lt hlen)
      · rw [hpair, hsel]
        exact bjetsOrderedInit_index_lt (hb ▸ List.mem_cons_self _ _)
    · rcases hcase with ⟨j, rest, hnew, hres⟩ | ⟨hnew, hcase2⟩
      · have hj : j ∈ OrderJets (CreateJetInfo cfg ev (selAfterVBFStage cfg ev) true) true
            cfg.bjet_pt_cut cfg.bjet_eta_cut := by
          rw [hnew]
          exact List.mem_cons_self _ _
        rcases selAfterBStage_shape cfg ev with ⟨hb, hsel⟩ | ⟨j0, hb, hsel⟩ |
          ⟨j0, j1, rest2, hb, hsel⟩
        · exfalso
          have := mem_bjetsOrderedInit_of_fallback hlen hj
          rw [hb] at this
          cases this
        · have hfst : (selAfterVBFStage cfg ev).selectedBjetPair.1 = j0.index := by
            rw [selAfterVBFStage_bjet, hsel]
          rw [hres]
          show (selAfterVBFStage cfg ev).selectedBjetPair.1 < ev.jets.length
          rw [hfst]
          exact bjetsOrderedInit_index_lt (hb ▸ List.mem_cons_self _ _)
        · have hfst : (selAfterVBFStage cfg ev).selectedBjetPair.1 = j0.index := by
            rw [selAfterVBFStage_bjet]
            simp only [selAfterBStage, hb]
          rw [hres]
          show (selAfterVBFStage cfg ev).selectedBjetPair.1 < ev.jets.length
          rw [hfst]
          exact bjetsOrderedInit_index_lt (hb ▸ List.mem_cons_self _ _)
      · rcases hcase2 with ⟨j0, j1, rest, hb, hres⟩ | ⟨hblen, hres⟩
        · have hfst : (selAfterVBFStage cfg ev).selectedBjetPair.1 = j0.index := by
            rw [selAfterVBFStage_bjet]
            simp only [selAfterBStage, hb]
          rw [hres]
          show (selAfterVBFStage cfg ev).selectedBjetPair.1 < ev.jets.length
          rw [hfst]
          exact bjetsOrderedInit_index_lt (hb ▸ List.mem_cons_self _ _)
        · have hpair : (SelectSignalJets cfg ev).selectedBjetPair =
              (selAfterBStage cfg ev).selectedBjetPair := by
            rw [hres]
            rfl
          rcases selAfterBStage_shape cfg ev with ⟨hb, hsel⟩ | ⟨j0, hb, hsel⟩ |
            ⟨j0, j1, rest, hb, hsel⟩
          · rw [hpair, hsel] at h2nd
            exact absurd h2nd (not_undefIdx_lt hlen)
          · rw [hpair, hsel] at h2nd
            exact absurd h2nd (not_undefIdx_lt hlen)
          · rw [hb] at hblen
            simp at hblen

/-- C3 counterexample: on the one-jet event whose only jet passes every b-jet
cut, `SelectSignalJets` returns the partial b-jet pair `(0, undefIdx)` —
exactly one valid index — so the claimed fully-defined-or-fully-undefined
dichotomy fails for the b-jet pair. -/
theorem claim_C3_counterexample :
    ¬ (((SelectSignalJets sampleConfig (sampleEvent [sampleJet0])).selectedBjetPair.1 <
          (sampleEvent [sampleJet0]).jets.length ∧
        (SelectSignalJets sampleConfig (sampleEvent [sampleJet0])).selectedBjetPair.2 <
          (sampleEvent [sampleJet0]).jets.length ∧
        (SelectSignalJets sampleConfig (sampleEvent [sampleJet0])).selectedBjetPair.1 ≠
          (SelectSignalJets sampleConfig (sampleEvent [sampleJet0])).selectedBjetPair.2) ∨
       (¬ (SelectSignalJets sampleConfig (sampleEvent [sampleJet0])).selectedBjetPair.1 <
          (sampleEvent [sampleJet0]).jets.length ∧
        ¬ (SelectSignalJets sampleConfig (sampleEvent [sampleJet0])).selectedBjetPair.2 <
          (sampleEvent [sampleJet0]).jets.length)) := by
  decide

/-- Witness for the amended C3 invariants at a concrete input. -/
theorem claim_C3_witness :
    (sampleEvent [sampleJet0]).jets.length ≤ undefIdx ∧
    (((SelectSignalJets sampleConfig (sampleEvent [sampleJet0])).HasBjetPair
          (sampleEvent [sampleJet0]).jets.length = true →
        (SelectSignalJets sampleConfig (sampleEvent [sampleJet0])).selectedBjetPair.1 ≠
          (SelectSignalJets sampleConfig (sampleEvent [sampleJet0])).selectedBjetPair.2) ∧
      ((SelectSignalJets sampleConfig (sampleEvent [sampleJet0])).HasVBFPair
          (sampleEvent [sampleJet0]).jets.length = true →
        (SelectSignalJets sampleConfig (sampleEvent [sampleJet0])).selectedVBFjetPair.1 ≠
          (SelectSignalJets sampleConfig (sampleEvent [sampleJet0])).selectedVBFjetPair.2) ∧
      ((SelectSignalJets sampleConfig (sampleEvent [sampleJet0])).selectedVBFjetPair.1 <
          (sampleEvent [sampleJet0]).jets.length ↔
        (SelectSignalJets sampleConfig (sampleEvent [sampleJet0])).selectedVBFjetPair.2 <
          (sampleEvent [sampleJet0]).jets.length) ∧
      ((SelectSignalJets sampleConfig (sampleEvent [sampleJet0])).selectedBjetPair.2 <
          (sampleEvent [sampleJet0]).jets.length →
        (SelectSignalJets sampleConfig (sampleEvent [sampleJet0])).selectedBjetPair.1 <
          (sampleEvent [sampleJet0]).jets.length)) :=
  ⟨by decide,
   claim_C3_amended_pair_invariants sampleConfig (sampleEvent [sampleJet0]) (by decide)⟩

/-- C10: disjointness of the selected pairs — whenever `SelectSignalJets`
returns both a defined b-jet pair and a defined VBF pair, no jet index
appears in both pairs: the VBF candidate list excludes the already-selected
b-jets, the fallback second b-jet is drawn from a list excluding both
selected pairs, and the fallback branches that reuse the pre-working-point
runner-up clear the VBF pair first. -/
theorem claim_C10_pair_disjointness (cfg : Config) (ev : Event)
    (hlen : ev.jets.length ≤ undefIdx)
    (_hB : (SelectSignalJets cfg ev).HasBjetPair ev.jets.length = true)
    (hV : (SelectSignalJets cfg ev).HasVBFPair ev.jets.length = true) :
    (SelectSignalJets cfg ev).selectedBjetPair.1 ≠
      (SelectSignalJets cfg ev).selectedVBFjetPair.1 ∧
    (SelectSignalJets cfg ev).selectedBjetPair.1 ≠
      (SelectSignalJets cfg ev).selectedVBFjetPair.2 ∧
    (SelectSignalJets cfg ev).selectedBjetPair.2 ≠
      (SelectSignalJets cfg ev).selectedVBFjetPair.1 ∧
    (SelectSignalJets cfg ev).selectedBjetPair.2 ≠
      (SelectSignalJets cfg ev).selectedVBFjetPair.2 := by
  rcases SelectSignalJets_shape cfg ev with ⟨hres, hB'⟩ | ⟨hB', hcase⟩
  · rcases selectVBFPair_cases_of cfg ev (selAfterBStage cfg ev) with hc |
      ⟨a, b, hc, hne, _, _, hsa, hsb⟩
    · exfalso
      have h1 := (HasVBFPair_iff.1 hV).1
      rw [hres, selAfterVBFStage_vbf, hc] at h1
      exact absurd h1 (not_undefIdx_lt hlen)
    · have hvb : (SelectSignalJets cfg ev).selectedVBFjetPair = (a, b) := by
        rw [hres, selAfterVBFStage_vbf, hc]
      have hbj : (SelectSignalJets cfg ev).selectedBjetPair =
          (selAfterBStage cfg ev).selectedBjetPair := by
        rw [hres, selAfterVBFStage_bjet]
      have ha1 := isSelectedBjet_false_iff.1 hsa
      have hb1 := isSelectedBjet_false_iff.1 hsb
      rw [hvb, hbj]
      exact ⟨ha1.1, hb1.1, ha1.2, hb1.2⟩
  · rcases hcase with ⟨j, rest, hnew, hres⟩ | ⟨hnew, hcase2⟩
    · have hvb1 : (SelectSignalJets cfg ev).selectedVBFjetPair =
          (selAfterVBFStage cfg ev).selectedVBFjetPair := by
        rw [hres]
      have hbj1 : (SelectSignalJets cfg ev).selectedBjetPair =
          ((selAfterVBFStage cfg ev).selectedBjetPair.1, j.index) := by
        rw [hres]
      rcases selectVBFPair_cases_of cfg ev (selAfterBStage cfg ev) with hc |
        ⟨a, b, hc, hne, _, _, hsa, hsb⟩
      · exfalso
        have h1 := (HasVBFPair_iff.1 hV).1
        rw [hvb1, selAfterVBFStage_vbf, hc] at h1
        exact absurd h1 (not_undefIdx_lt hlen)
      · have hj : j ∈ CreateJetInfo cfg ev (selAfterVBFStage cfg ev) true := by
          have hmem : j ∈ OrderJets (CreateJetInfo cfg ev (selAfterVBFStage cfg ev) true) true
              cfg.bjet_pt_cut cfg.bjet_eta_cut := by
            rw [hnew]
            exact List.mem_cons_self _ _
          exact (mem_OrderJets.1 hmem).1
        have hfacts := CreateJetInfo_index_facts hj
        have hvj := isSelectedVBFjet_false_iff.1 hfacts.2.2
        have hvsel : (selAfterVBFStage cfg ev).selectedVBFjetPair = (a, b) := by
          rw [selAfterVBFStage_vbf, hc]
        rw [hvsel] at hvj
        have ha1 := isSelectedBjet_false_iff.1 hsa
        have hb1 := isSelectedBjet_false_iff.1 hsb
        rw [hvb1, hvsel, hbj1]
        refine ⟨?_, ?_, ?_, ?_⟩
        · rw [selAfterVBFStage_bjet]
          exact ha1.1
        · rw [selAfterVBFStage_bjet]
          exact hb1.1
        · exact fun hh => hvj.1 hh.symm
        · exact fun hh => hvj.2 hh.symm
    · rcases hcase2 with ⟨j0, j1, rest, hb, hres⟩ | ⟨hblen, hres⟩
      · exfalso
        have h1 := (HasVBFPair_iff.1 hV).1
        rw [hres] at h1
        exact absurd h1 (not_undefIdx_lt hlen)
      · exfalso
        have h1 := (HasVBFPair_iff.1 hV).1
        rw [hres] at h1
        exact absurd h1 (not_undefIdx_lt hlen)

/-- Witness for C10 on a four-jet event whose selection defines both pairs. -/
theorem claim_C10_witness :
    (evVBFSample.jets.length ≤ undefIdx ∧
     (SelectSignalJets sampleConfig evVBFSample).HasBjetPair evVBFSample.jets.length = true ∧
     (SelectSignalJets sampleConfig evVBFSample).HasVBFPair evVBFSample.jets.length = true) ∧
    ((SelectSignalJets sampleConfig evVBFSample).selectedBjetPair.1 ≠
       (SelectSignalJets sampleConfig evVBFSample).selectedVBFjetPair.1 ∧
     (SelectSignalJets sampleConfig evVBFSample).selectedBjetPair.1 ≠
       (SelectSignalJets sampleConfig evVBFSample).selectedVBFjetPair.2 ∧
     (SelectSignalJets sampleConfig evVBFSample).selectedBjetPair.2 ≠
       (SelectSignalJets sampleConfig evVBFSample).selectedVBFjetPair.1 ∧
     (SelectSignalJets sampleConfig evVBFSample).selectedBjetPair.2 ≠
       (SelectSignalJets sampleConfig evVBFSample).selectedVBFjetPair.2) :=
  ⟨⟨by decide, by decide, by decide⟩,
   claim_C10_pair_disjointness sampleConfig evVBFSample (by decide) (by decide) (by decide)⟩

/-- C6: VBF maximality — when `SelectSignalJets` returns a defined VBF pair,
that pair is some two-element combination of the VBF-ranked candidate list
built after the b-stage (the list already excludes the selected b-jets and
applies the noise veto, pile-up-id bit and VBF pt/eta thresholds), its
invariant mass is maximal among all such combinations, and every combination
scanned before it has strictly smaller invariant mass, so among equal-mass
maxima the first one in scan order is the one chosen. -/
theorem claim_C6_vbf_maximality (cfg : Config) (ev : Event)
    (hlen : ev.jets.length ≤ undefIdx)
    (hV : (SelectSignalJets cfg ev).HasVBFPair ev.jets.length = true) :
    ∃ l1 pr l2,
      upperPairs (vbfOrderedOf cfg ev (selAfterBStage cfg ev)) = l1 ++ pr :: l2 ∧
      (SelectSignalJets cfg ev).selectedVBFjetPair = (pr.1.index, pr.2.index) ∧
      (∀ q ∈ upperPairs (vbfOrderedOf cfg ev (selAfterBStage cfg ev)),
        massOf q ≤ massOf pr) ∧
      (∀ q ∈ l1, massOf q < massOf pr) := by
  rcases SelectSignalJets_vbf_cases cfg ev with hv | hv
  · rcases selectVBFPair_spec (vbfOrderedOf cfg ev (selAfterBStage cfg ev)) with ⟨_, hsel⟩ |
      ⟨l1, pr, l2, hsplit, hsel, hmax, hfirst⟩
    · exfalso
      have h1 := (HasVBFPair_iff.1 hV).1
      rw [hv, hsel] at h1
      exact absurd h1 (not_undefIdx_lt hlen)
    · exact ⟨l1, pr, l2, hsplit, by rw [hv, hsel], hmax, hfirst⟩
  · exfalso
    have h1 := (HasVBFPair_iff.1 hV).1
    rw [hv] at h1
    exact absurd h1 (not_undefIdx_lt hlen)

/-- Witness for C6 on the four-jet event with a defined VBF pair. -/
theorem claim_C6_witness :
    (evVBFSample.jets.length ≤ undefIdx ∧
     (SelectSignalJets sampleConfig evVBFSample).HasVBFPair evVBFSample.jets.length = true) ∧
    (∃ l1 pr l2,
      upperPairs (vbfOrderedOf sampleConfig evVBFSample
        (selAfterBStage sampleConfig evVBFSample)) = l1 ++ pr :: l2 ∧
      (SelectSignalJets sampleConfig evVBFSample).selectedVBFjetPair =
        (pr.1.index, pr.2.index) ∧
      (∀ q ∈ upperPairs (vbfOrderedOf sampleConfig evVBFSample
        (selAfterBStage sampleConfig evVBFSample)), massOf q ≤ massOf pr) ∧
      (∀ q ∈ l1, massOf q < massOf pr)) :=
  ⟨⟨by decide, by decide⟩,
   claim_C6_vbf_maximality sampleConfig evVBFSample (by decide) (by decide)⟩

/-- C5: fallback coverage of `SelectSignalJets` — when exactly one jet passes
all b-jet selection cuts, the returned selection leaves the second b-jet slot
at the undefined sentinel and the VBF pair undefined; when the ranking has at
least two candidates but the second-ranked one fails the medium working
point, the fallback stage still produces a defined b-jet pair. -/
theorem claim_C5_fallback_coverage (cfg : Config) (ev : Event)
    (hlen : ev.jets.length ≤ undefIdx) :
    ((ev.jets.enum.filter (passesBCuts cfg)).length = 1 →
      (SelectSignalJets cfg ev).selectedBjetPair.2 = undefIdx ∧
      (SelectSignalJets cfg ev).selectedVBFjetPair = UndefinedJetPair) ∧
    (∀ j0 j1 rest, bjetsOrderedInit cfg ev = j0 :: j1 :: rest →
      cfg.passWP ev j1.index = false →
      (SelectSignalJets cfg ev).HasBjetPair ev.jets.length = true) := by
  constructor
  · intro h1
    have hperm := bjetsOrderedInit_perm cfg ev hlen
    have hlen1 : (bjetsOrderedInit cfg ev).length = 1 := by
      rw [hperm.length_eq, List.length_map, h1]
    obtain ⟨j0, hb⟩ := List.length_eq_one.1 hlen1
    have hselB : selAfterBStage cfg ev =
        ⟨(j0.index, undefIdx), UndefinedJetPair, 1⟩ := by
      simp only [selAfterBStage, hb]
    have hsecond : (selAfterVBFStage cfg ev).selectedBjetPair.2 = undefIdx := by
      rw [selAfterVBFStage_bjet, hselB]
    have hfirst : (selAfterVBFStage cfg ev).selectedBjetPair.1 = j0.index := by
      rw [selAfterVBFStage_bjet, hselB]
    have hnewB : OrderJets (CreateJetInfo cfg ev (selAfterVBFStage cfg ev) true) true
        cfg.bjet_pt_cut cfg.bjet_eta_cut = [] := by
      rw [List.eq_nil_iff_forall_not_mem]
      intro j hj
      have hjb : j ∈ bjetsOrderedInit cfg ev := mem_bjetsOrderedInit_of_fallback hlen hj
      rw [hb] at hjb
      have hjj : j = j0 := by simpa using hjb
      have hmem := (mem_OrderJets.1 hj).1
      have hfacts := CreateJetInfo_index_facts hmem
      have hne := (isSelectedBjet_false_iff.1 hfacts.2.1).1
      rw [hfirst] at hne
      exact hne (by rw [hjj])
    rcases SelectSignalJets_shape cfg ev with ⟨hres, hB'⟩ | ⟨hB', hcase⟩
    · exfalso
      have h2 := (HasBjetPair_iff.1 hB').2
      rw [hsecond] at h2
      exact absurd h2 (not_undefIdx_lt hlen)
    · rcases hcase with ⟨j, rest, hnw, hres⟩ | ⟨hnw, hcase2⟩
      · rw [hnewB] at hnw
        cases hnw
      · rcases hcase2 with ⟨j0', j1', rest', hb', hres⟩ | ⟨hblen, hres⟩
        · rw [hb] at hb'
          simp at hb'
        · constructor
          · rw [hres]
            exact hsecond
          · rw [hres]
  · intro j0 j1 rest hb hW
    have hselB : selAfterBStage cfg ev =
        ⟨(j0.index, if cfg.passWP ev j1.index then j1.index else undefIdx),
         UndefinedJetPair, (j0 :: j1 :: rest).length⟩ := by
      simp only [selAfterBStage, hb]
    have hfirst : (selAfterVBFStage cfg ev).selectedBjetPair.1 = j0.index := by
      rw [selAfterVBFStage_bjet, hselB]
    have hsecond : (selAfterVBFStage cfg ev).selectedBjetPair.2 = undefIdx := by
      rw [selAfterVBFStage_bjet, hselB]
      simp [hW]
    have hfirstlt : j0.index < ev.jets.length :=
      bjetsOrderedInit_index_lt (hb ▸ List.mem_cons_self _ _)
    have hj1lt : j1.index < ev.jets.length :=
      bjetsOrderedInit_index_lt (hb ▸ List.mem_cons_of_mem _ (List.mem_cons_self _ _))
    rcases SelectSignalJets_shape cfg ev with ⟨hres, hB'⟩ | ⟨hB', hcase⟩
    · exfalso
      have h2 := (HasBjetPair_iff.1 hB').2
      rw [hsecond] at h2
      exact absurd h2 (not_undefIdx_lt hlen)
    · rcases hcase with ⟨j, rest2, hnw, hres⟩ | ⟨hnw, hcase2⟩
      · have hj : j ∈ OrderJets (CreateJetInfo cfg ev (selAfterVBFStage cfg ev) true) true
            cfg.bjet_pt_cut cfg.bjet_eta_cut := by
          rw [hnw]
          exact List.mem_cons_self _ _
        have hjlt : j.index < ev.jets.length :=
          (CreateJetInfo_index_facts (mem_OrderJets.1 hj).1).1
        rw [hres, HasBjetPair_iff]
        refine ⟨?_, ?_⟩
        · show (selAfterVBFStage cfg ev).selectedBjetPair.1 < ev.jets.length
          rw [hfirst]
          exact hfirstlt
        · show j.index < ev.jets.length
          exact hjlt
      · rcases hcase2 with ⟨j0', j1', rest', hb', hres⟩ | ⟨hblen, hres⟩
        · rw [hb] at hb'
          injection hb' with h0 htail
          injection htail with h1 _
          rw [hres, HasBjetPair_iff]
          refine ⟨?_, ?_⟩
          · show (selAfterVBFStage cfg ev).selectedBjetPair.1 < ev.jets.length
            rw [hfirst]
            exact hfirstlt
          · show j1'.index < ev.jets.length
            rw [← h1]
            exact hj1lt
        · rw [hb] at hblen
          simp at hblen

/-- Witness for C5: a one-passing-jet event for the first part and the
fallback event with a failing second working point for the second part. -/
theorem claim_C5_witness :
    (evOneBSample.jets.length ≤ undefIdx ∧
     (evOneBSample.jets.enum.filter (passesBCuts sampleConfig)).length = 1 ∧
     ((SelectSignalJets sampleConfig evOneBSample).selectedBjetPair.2 = undefIdx ∧
      (SelectSignalJets sampleConfig evOneBSample).selectedVBFjetPair = UndefinedJetPair)) ∧
    (evFallbackSample.jets.length ≤ undefIdx ∧
     bjetsOrderedInit sampleConfig evFallbackSample = [infoTopSample, infoThirdSample] ∧
     sampleConfig.passWP evFallbackSample infoThirdSample.index = false ∧
     (SelectSignalJets sampleConfig evFallbackSample).HasBjetPair
       evFallbackSample.jets.length = true) :=
  ⟨⟨by decide, by decide,
    (claim_C5_fallback_coverage sampleConfig evOneBSample (by decide)).1 (by decide)⟩,
   by decide, by decide, by decide,
   (claim_C5_fallback_coverage sampleConfig evFallbackSample (by decide)).2
     infoTopSample infoThirdSample [] (by decide) (by decide)⟩

/-- C7: on every 3-jet event whose first jet passes all b-jet cuts with the
highest tag score, whose second jet passes all b-jet cuts and the medium
working point, and whose third jet fails the b-jet pt cut, `SelectSignalJets`
returns the b-jet pair (0, 1) with two b-tagged jets and an undefined VBF
pair (the VBF candidate list, which excludes jets 0 and 1, has fewer than
two entries). -/
theorem claim_C7_three_jet_example (cfg : Config) (ev : Event) (j0e j1e j2e : JetEntry)
    (hjets : ev.jets = [j0e, j1e, j2e])
    (hp0 : passesBCuts cfg (0, j0e) = true)
    (hp1 : passesBCuts cfg (1, j1e) = true)
    (htag : cfg.btag ev 1 < cfg.btag ev 0)
    (hW : cfg.passWP ev 1 = true)
    (hp2 : decide (cfg.bjet_pt_cut < j2e.pt) = false) :
    SelectSignalJets cfg ev = ⟨(0, 1), UndefinedJetPair, 2⟩ := by
  have henum : ev.jets.enum = [(0, j0e), (1, j1e), (2, j2e)] := by
    rw [hjets]
    rfl
  have hn : ev.jets.length = 3 := by
    rw [hjets]
    rfl
  have hp0' : cfg.passNoiseVeto j0e = true ∧ (j0e.pu_id &&& 2 == 0) = false ∧
      decide (cfg.bjet_pt_cut < j0e.pt) = true ∧
      decide (qabs j0e.eta < cfg.bjet_eta_cut) = true := by
    have h := hp0
    simp only [passesBCuts, Bool.and_eq_true, Bool.not_eq_true'] at h
    exact ⟨h.1.1.1, h.1.1.2, h.1.2, h.2⟩
  have hp1' : cfg.passNoiseVeto j1e = true ∧ (j1e.pu_id &&& 2 == 0) = false ∧
      decide (cfg.bjet_pt_cut < j1e.pt) = true ∧
      decide (qabs j1e.eta < cfg.bjet_eta_cut) = true := by
    have h := hp1
    simp only [passesBCuts, Bool.and_eq_true, Bool.not_eq_true'] at h
    exact ⟨h.1.1.1, h.1.1.2, h.1.2, h.2⟩
  have hE0 : createJetInfoEntry cfg ev ⟨UndefinedJetPair, UndefinedJetPair, 0⟩ true (0, j0e) =
      some ⟨j0e.p4, j0e.pt, j0e.eta, 0, cfg.btag ev 0⟩ := by
    rw [createJetInfoEntry_eq_some]
    exact ⟨(by decide : SelectedSignalJets.isSelectedBjet
        ⟨UndefinedJetPair, UndefinedJetPair, 0⟩ 0 = false),
      (by decide : SelectedSignalJets.isSelectedVBFjet
        ⟨UndefinedJetPair, UndefinedJetPair, 0⟩ 0 = false),
      hp0'.1, hp0'.2.1, rfl⟩
  have hE1 : createJetInfoEntry cfg ev ⟨UndefinedJetPair, UndefinedJetPair, 0⟩ true (1, j1e) =
      some ⟨j1e.p4, j1e.pt, j1e.eta, 1, cfg.btag ev 1⟩ := by
    rw [createJetInfoEntry_eq_some]
    exact ⟨(by decide : SelectedSignalJets.isSelectedBjet
        ⟨UndefinedJetPair, UndefinedJetPair, 0⟩ 1 = false),
      (by decide : SelectedSignalJets.isSelectedVBFjet
        ⟨UndefinedJetPair, UndefinedJetPair, 0⟩ 1 = false),
      hp1'.1, hp1'.2.1, rfl⟩
  have hfilter : (CreateJetInfo cfg ev ⟨UndefinedJetPair, UndefinedJetPair, 0⟩ true).filter
      (fun j => decide (cfg.bjet_pt_cut < j.pt) && decide (qabs j.eta < cfg.bjet_eta_cut)) =
      [⟨j0e.p4, j0e.pt, j0e.eta, 0, cfg.btag ev 0⟩,
       ⟨j1e.p4, j1e.pt, j1e.eta, 1, cfg.btag ev 1⟩] := by
    unfold CreateJetInfo
    rw [henum]
    cases hE2 : createJetInfoEntry cfg ev ⟨UndefinedJetPair, UndefinedJetPair, 0⟩ true
        (2, j2e) with
    | none =>
        simp only [List.filterMap_cons, hE0, hE1, hE2, List.filterMap_nil]
        simp [List.filter_cons, hp0'.2.2.1, hp0'.2.2.2, hp1'.2.2.1, hp1'.2.2.2]
    | some x =>
        obtain ⟨_, _, _, _, rfl⟩ := createJetInfoEntry_eq_some.1 hE2
        simp only [List.filterMap_cons, hE0, hE1, hE2, List.filterMap_nil]
        simp [List.filter_cons, hp0'.2.2.1, hp0'.2.2.2, hp1'.2.2.1, hp1'.2.2.2, hp2]
  have hbinit : bjetsOrderedInit cfg ev =
      [⟨j0e.p4, j0e.pt, j0e.eta, 0, cfg.btag ev 0⟩,
       ⟨j1e.p4, j1e.pt, j1e.eta, 1, cfg.btag ev 1⟩] := by
    unfold bjetsOrderedInit OrderJets
    rw [OrderJets_filter_true, hfilter]
    simp only [List.insertionSort, List.orderedInsert]
    rw [if_pos (show jetBefore ⟨j0e.p4, j0e.pt, j0e.eta, 0, cfg.btag ev 0⟩
        ⟨j1e.p4, j1e.pt, j1e.eta, 1, cfg.btag ev 1⟩ from Or.inl htag)]
  have hselB : selAfterBStage cfg ev = ⟨(0, 1), UndefinedJetPair, 2⟩ := by
    unfold selAfterBStage
    rw [hbinit]
    simp [hW]
  have hF0 : createJetInfoEntry cfg ev (selAfterBStage cfg ev) false (0, j0e) = none := by
    rw [hselB]
    simp [createJetInfoEntry, SelectedSignalJets.isSelectedBjet]
  have hF1 : createJetInfoEntry cfg ev (selAfterBStage cfg ev) false (1, j1e) = none := by
    rw [hselB]
    simp [createJetInfoEntry, SelectedSignalJets.isSelectedBjet]
  have hCJ2len : (CreateJetInfo cfg ev (selAfterBStage cfg ev) false).length ≤ 1 := by
    unfold CreateJetInfo
    rw [henum]
    simp only [List.filterMap_cons, hF0, hF1, List.filterMap_nil]
    cases hE2 : createJetInfoEntry cfg ev (selAfterBStage cfg ev) false (2, j2e) <;>
      simp [hE2]
  have hvlen : (vbfOrderedOf cfg ev (selAfterBStage cfg ev)).length ≤ 1 := by
    unfold vbfOrderedOf
    rw [(OrderJets_perm _ _ _).length_eq]
    exact le_trans (List.length_filter_le _ _) hCJ2len
  have hup : upperPairs (vbfOrderedOf cfg ev (selAfterBStage cfg ev)) = [] := by
    cases hv : vbfOrderedOf cfg ev (selAfterBStage cfg ev) with
    | nil => rfl
    | cons a t =>
        cases t with
        | nil => rfl
        | cons b t2 =>
            exfalso
            rw [hv] at hvlen
            simp at hvlen
  have hvbf : selectVBFPair (vbfOrderedOf cfg ev (selAfterBStage cfg ev)) =
      UndefinedJetPair := by
    unfold selectVBFPair
    rw [hup]
    rfl
  have hselC : selAfterVBFStage cfg ev = ⟨(0, 1), UndefinedJetPair, 2⟩ := by
    have hstep : selAfterVBFStage cfg ev =
        { selAfterBStage cfg ev with
          selectedVBFjetPair := selectVBFPair (vbfOrderedOf cfg ev (selAfterBStage cfg ev)) } :=
      rfl
    rw [hstep, hvbf, hselB]
  simp only [SelectSignalJets]
  rw [hselC, hn]
  rw [if_pos (show SelectedSignalJets.HasBjetPair ⟨(0, 1), UndefinedJetPair, 2⟩ 3 = true
      by decide)]

/-- Witness for C7 on the three-jet sample event. -/
theorem claim_C7_witness :
    ((sampleEvent [sampleJet0, sampleJet1, sampleJet2]).jets =
       [sampleJet0, sampleJet1, sampleJet2] ∧
     passesBCuts sampleConfig (0, sampleJet0) = true ∧
     passesBCuts sampleConfig (1, sampleJet1) = true ∧
     sampleConfig.btag (sampleEvent [sampleJet0, sampleJet1, sampleJet2]) 1 <
       sampleConfig.btag (sampleEvent [sampleJet0, sampleJet1, sampleJet2]) 0 ∧
     sampleConfig.passWP (sampleEvent [sampleJet0, sampleJet1, sampleJet2]) 1 = true ∧
     decide (sampleConfig.bjet_pt_cut < sampleJet2.pt) = false) ∧
    SelectSignalJets sampleConfig (sampleEvent [sampleJet0, sampleJet1, sampleJet2]) =
      ⟨(0, 1), UndefinedJetPair, 2⟩ :=
  ⟨⟨by decide, by decide, by decide, by decide, by decide, by decide⟩,
   claim_C7_three_jet_example sampleConfig (sampleEvent [sampleJet0, sampleJet1, sampleJet2])
     sampleJet0 sampleJet1 sampleJet2 (by decide) (by decide) (by decide) (by decide)
     (by decide) (by decide)⟩

end analysis
